import Mathlib

/-!
A shallow embedding of the `mast_notebooks` repository: the cells of its
Jupyter notebooks, its `_toc.yml` table of contents, and Lean models of the
two Python functions the notebooks define (`getdss` and `create_plot`), of
the gif-creation cell, and of the table sorting done in the wildcard-search
notebook.  The notebook data below is transcribed cell by cell from the
`.ipynb` JSON sources: each cell is given by its type and its source text
split at newlines.
-/

namespace MastNotebooks

/-- true when the first char list is an initial segment of the second. -/
def leadsWith : List Char → List Char → Bool
  | [], _ => true
  | _ :: _, [] => false
  | p :: ps, c :: cs => p == c && leadsWith ps cs

/-- true when the (nonempty) pattern occurs as a contiguous run inside the text:
the Python `in` substring test for nonempty patterns. -/
def hasSub (pat : List Char) : List Char → Bool
  | [] => false
  | c :: cs => leadsWith pat (c :: cs) || hasSub pat cs

/-- substring test on strings. -/
def lineHasStr (pat l : String) : Bool := hasSub pat.data l.data

/-- single-pass test for an occurrence of either of two (nonempty) patterns. -/
def scanTwo (p q : List Char) : List Char → Bool
  | [] => false
  | c :: cs => leadsWith p (c :: cs) || leadsWith q (c :: cs) || scanTwo p q cs

/-- does the line contain the string "retries" or the string "backpressure"? -/
def lineHasForbidden (l : String) : Bool :=
  scanTwo ("retries".data) ("backpressure".data) l.data

/-- does the string s start with pat? -/
def strLeads (pat s : String) : Bool := leadsWith pat.data s.data

/-- does the string s end with suf? -/
def strEnds (suf s : String) : Bool := leadsWith suf.data.reverse s.data.reverse

/-- Python str.strip() restricted to spaces, which is all the sources use. -/
def strip (s : String) : String :=
  String.mk (((s.data.dropWhile fun c => c == ' ').reverse.dropWhile fun c => c == ' ').reverse)

/-- the type of a Jupyter cell. -/
inductive CellKind where
  | markdown
  | code
deriving DecidableEq

/-- a Jupyter cell: its type and its source text split at newlines. -/
structure Cell where
  kind : CellKind
  source : List String
deriving DecidableEq

/-- a markdown cell. -/
def md (lines : List String) : Cell := Cell.mk CellKind.markdown lines

/-- a code cell. -/
def code (lines : List String) : Cell := Cell.mk CellKind.code lines

/-- a chapter of a jupyter-book toc: a file plus optional nested section files. -/
structure TocEntry where
  file : String
  sections : List String
deriving DecidableEq

/-- a captioned part of a jupyter-book toc. -/
structure TocPart where
  caption : String
  chapters : List TocEntry
deriving DecidableEq

/-- a jupyter-book table of contents. -/
structure JBook where
  format : String
  root : String
  parts : List TocPart
deriving DecidableEq

/-- Cells of notebooks/TESS/interm_tesscut_dss_overlay/interm_tesscut_dss_overlay.ipynb: each cell of the .ipynb JSON, given by its type and its source text split at newlines. -/
def interm_tesscut_dss_overlay : List Cell := [
  md [
    "<a id=\"title_ID\"></a>",
    "# Intermediate: Overlay a Cutout of the TESS FFIs with DSS imaging",
    "",
    "This notebook shows the user how to use the MAST programmatic interface to create a cutout of the small section of the TESS FFIs. For this example we will determine the RA and Dec for TIC 261105201. We then perform a query to determine which sectors contain this RA and Dec, peform a cutout of the FFI time series, open the resulting target pixel files, and plot the first image of each file with the WCS overlayed on the image. Finally we will create a light curve from the resulting image by creating a photometric aperture and summing the light in our pixels.  ",
    "",
    "This tutorial shows the users how to do the following: use \x60astroquery.catalogs\x60 to query the TIC, use astroquery Tesscut to determine the number of sectors that contain our target and download a FFI cutout.",
    "",
    "",
    "### Table of Contents ",
    "[Get Tesscut with Astroquery](#get_tesscut) <br>",
    "   ",
    "- [Download Tesscut](#download_tess)<br>",
    "- [Make Kepler TPF](#make_tpf)<br>",
    "- [Make GIF](#make_gif)<br> ",
    "- [Find TIC objects](#find_tic)<br>",
    "- [Overlay TessCut and TIC](#plot_tpf_tic)<br>",
    "",
    "[Get DSS image](#get_dss) <br>",
    "[Overlay Tesscut and DSS](#overlay_images) <br>",
    "[Additional Resources](#resources) <br>",
    "[About this Notebook](#about_ID) "],
  md [
    "",
    "## TESSCut Overlay with DSS",
    "This notebook is an example of accessing and displaying a TESS FFI Cutout using the MAST TessCut service built into astroquery.  It uses astroquery to retrieve the related objects from the Tess Input Catalog (TIC). We then grab the related DSS image and overlay the TIC objects and the TESSCut image altogether.   "],
  md [
    "## Import Statements",
    "<a id=\"imports_ID\"></a>",
    "",
    "We start with a few import statements.",
    "- *os* to handle path and file operations",
    "- *requests* to handle HTTP get requests",
    "- *numpy* to handle array functions",
    "- *matplotlib.pyplot* for plotting the data",
    "- *k2flix* to load and create a Target Pixel File object and make GIFs ",
    "- *astroquery.mast* for the Catalogs and for Tesscut.",
    "- *astropy.units* for using proper astronomy units",
    "- *astropy.io fits* for accessing FITS files",
    "- *astropy.wcs WCS* to interpret the World Coordinate Systems",
    "- *astropy.coordinates SkyCoord* for creating an on-sky coordinate",
    "- *astropy.visualizaton simple_norm* for normalizing data for plots",
    "- *reproject reproject_interp* for reprojecting images from one WCS coordinate system into another",
    "- *IPython.display Image* for loading a GIF image in the notebook",
    "- *ipywidgets* to create an interactive plot with widget slider "],
  code [
    "# import the packages we need",
    "import os",
    "import numpy as np",
    "import requests",
    "import k2flix",
    "%matplotlib inline",
    "import matplotlib.pyplot as plt",
    "",
    "# astroquery",
    "from astroquery.mast import Tesscut",
    "from astroquery.mast import Catalogs",
    "",
    "# Astropy",
    "import astropy.units as u",
    "from astropy.io import fits",
    "from astropy.wcs import WCS",
    "from astropy.coordinates import SkyCoord",
    "from astropy.visualization import simple_norm",
    "",
    "from reproject import reproject_interp",
    "",
    "from IPython.display import Image",
    "from ipywidgets import interact, interactive, fixed, interact_manual"],
  md [
    "<a id=\"get_tesscut\"></a>",
    "## Getting a Custom TESS Cutout Target Pixel File",
    "The first step is to get the Target Pixel File.  We can download a custom target pixel file using the **Astroquery** python package. In particular we will use the \x60\x60download_tesscut\x60\x60 method from the [Tesscut](https://astroquery.readthedocs.io/en/latest/mast/mast.html#tesscut) module.  Let\x27s create a Tess cutout centered on RA, Dec = 66.582618, -67.806508 in a 11x11 pixel window.    ",
    ""],
  code [
    "# select a target and cutout size in pixels",
    "ra, dec = 66.582618, -67.806508",
    "target = \x27\x7b0\x7d, \x7b1\x7d\x27.format(ra, dec)",
    "x = y = 11",
    "",
    "# set local file path to current working directory",
    "path = os.path.abspath(os.path.curdir)"],
  md [
    "<a id=\"download_tesscut\"></a>",
    "### Use Astroquery to retrieve the TESSCut image",
    "The \x60\x60download_cutouts\x60\x60 method requires as input an Astropy SkyCoord object, a cutout size in pixels and optionally accepts a download path.  This will download the custom cutout into the specified path and returns and Astropy table object with the paths to all the downloaded files.   "],
  code [
    "# create a sky coordinate object",
    "cutout_coords = SkyCoord(ra, dec, unit=\"deg\")",
    "    ",
    "# download the files and get the list of local paths",
    "try:",
    "    table = Tesscut.download_cutouts(coordinates=cutout_coords, size=x, path=path)",
    "except Exception as e:",
    "    print(\x27Error: Could not download cutouts: \x7b0\x7d\x27.format(e))",
    "else:",
    "    print(table)",
    "    files = table[\x27Local Path\x27]"],
  md [
    "<a id=\"make_tpf\"></a>",
    "### Open a Target Pixel File ",
    "We\x27ll be using Kepler\x27s [k2flix](https://barentsen.github.io/k2flix/) Python package to open and access the file, using the \x60\x60TargetPixelFile\x60\x60 class.  This is a convenience class that allows use to easily create a GIF.  Kepler provides a range of [software tools](https://keplerscience.arc.nasa.gov/software.html) that should also work with TESS data. We instantiate a new object and print some basic information about the custom TPF.  We need the WCS of the new TESS cutout, so we use Astropy WCS to define and create the wcs using the APERTURE extension of the cutout file."],
  code [
    "# grab the first file in the list",
    "filename = files[0]",
    "",
    "# create the TargetPixelFile instance",
    "tpf = k2flix.TargetPixelFile(filename)",
    "",
    "# get number of pixels in flux array ",
    "n_pix = tpf.flux().shape[0]",
    "",
    "# compute field of view in degrees",
    "res = 21.0 * (u.arcsec/u.pixel)",
    "area = res * (n_pix * u.pixel)",
    "d = area.to(u.degree)",
    "fov = d.value ",
    "",
    "# compute the wcs of the image",
    "wcs = WCS(tpf.hdulist[\x27APERTURE\x27].header)",
    "",
    "# print some info",
    "print(\x27filename\x27, tpf.filename)",
    "print(\x27Target TPF\x27, target)",
    "print(\x27Field of View [degrees]\x27, fov)",
    "print(\x27Number pixels\x27, tpf.flux().shape)"],
  md [
    "<a id=\"make_gif\"></a>",
    "### Create and display a GIF of the custom TPF",
    "Using k2flix and the TPF instance, we can create a GIF of the time-series data in the cutout with the \x60\x60save_movie\x60\x60 method.  Once it\x27s generated, we use the IPython Image class to display the gif in the notebook cell."],
  code [
    "# create the gif",
    "gif = tpf.filename.replace(\x27.fits\x27, \x27.gif\x27)",
    "if not os.path.exists(gif):",
    "    tpf.save_movie(gif, show_flags=True)"],
  code [
    "# display the gif",
    "if not os.path.exists(gif):",
    "    print(\"No gif found. Cannot display gif of time-series.\")",
    "",
    "Image(gif, embed=True)"],
  md [
    "<a id=\"find_tic\"></a>",
    "### Find targets within TPF FOV in TESS Input Catalog",
    "We also want to retrieve all objects from the TESS Input Catalog that are within the custom TESS cutout field of view.  We can use **Astroquery** [Catalogs.query_region](https://astroquery.readthedocs.io/en/latest/mast/mast.html#catalog-queries) to do this.  This takes a string input of RA, Dec, and a search radius in degrees, and which catalog to search on.  Since our fov is the total width/height of the cutout, we use \x60\x60fov/2.\x60\x60 to get a radius. "],
  code [
    "catalogData = Catalogs.query_region(target, radius=fov/2., catalog=\"Tic\")",
    "print(\x27n_targets\x27, len(catalogData))",
    "print(\x27example rows:\\n\x27, catalogData[0:5][\x27ID\x27, \x27ra\x27, \x27dec\x27])"],
  md [
    "<a id=\"plot_tpf_tic\"></a>",
    "### Plot static TPF image and overlay TIC catalog",
    "Let\x27s overylay the catalog search results with the custom TESS cutout.  We first need to convert the RA, Dec of all the catalog objects into pixel coordinates on the TESS cutout image.  We can do this using the [Astropy WCS](http://docs.astropy.org/en/stable/wcs/) object, with the \x60\x60all_world2pix\x60\x60 method.  "],
  code [
    "# get RA and Dec coords of catalog data",
    "tic_ra = catalogData[\x27ra\x27]",
    "tic_dec = catalogData[\x27dec\x27]",
    "",
    "# get pixel coordinates of RA and Dec ",
    "coords = wcs.all_world2pix(list(zip(tic_ra, tic_dec)),0)",
    "xc = [c[0] for c in coords]",
    "yc = [c[1] for c in coords]"],
  md [
    "Let\x27s use matplotlib to plot the first frame in the time-series of the cutout.  We use \x60\x60matplotlib.pyplot.imshow\x60\x60.  Now that we have the catalog object positions in pixel coordinates, we can overlay them as a scatter plot with \x60\x60matplotlib.pyplot.scatter\x60\x60.  We\x27ve optionally included a \x60\x60use_wcs\x60\x60 flag to create the plot using the WCS.  See [Matplotlib Plots With WCS](http://docs.astropy.org/en/stable/wcs/#matplotlib-plots-with-correct-wcs-projection) for more details.  We can pass a WCS object as a matplotlib axis projection.  Try setting \x60\x60use_wcs = True\x60\x60.  This will create the plot using the World Coordinates as the x,y axes. "],
  code [
    "# get first frame of flux from TPF",
    "data = tpf.hdulist[\x27PIXELS\x27].data[\"FLUX\"][0,:,:]",
    "",
    "# use log image normalization",
    "norm = simple_norm(data, \x27log\x27)",
    "",
    "# plot with wcs or not",
    "use_wcs = False",
    "",
    "# plot image and overlay TIC points",
    "ax = plt.subplot(projection=wcs if use_wcs else None)",
    "ax.imshow(data, origin=\x27lower\x27, norm=norm, cmap=\x27gray\x27)",
    "#ax.scatter(tic_ra, tic_dec, transform=ax.get_transform(\x27world\x27), s=20, facecolor=\x27red\x27, edgecolor=\x27white\x27)",
    "ax.scatter(xc, yc, s=20, facecolor=\x27red\x27, edgecolor=\x27white\x27)",
    "",
    "",
    "ax.figure.set_size_inches((10,10))",
    "",
    "# deal with axes",
    "if use_wcs:",
    "    xax = ax.coords[0]",
    "    yax = ax.coords[1]",
    "    xax.set_ticks(spacing=1.*u.arcmin)",
    "    yax.set_ticks(spacing=0.5 * u.arcmin)",
    "    xax.set_axislabel(\x27Right Ascension\x27)",
    "    yax.set_axislabel(\x27Declination\x27)",
    "else:",
    "    ax.set_xlabel(\x27x pixel\x27)",
    "    ax.set_ylabel(\x27y pixel\x27)"],
  md [
    "The TESS FFI images currently have an issue with its WCS that shift transformations by ~1 pixel.  To illustrate this point, we\x27ll compare the TESS cutout overlay with the TIC objects in pixel coordinates and world coordinates.  The left panel plots the cutout with the correct overlay of TIC objects.  The right panel plots the cutout using its WCS transformation.  The TIC objects are shifted by about a pixel relative to the underlying cutout.  This issue will present itself when using the WCS to overlay the cutout onto other data or vice versa.  The underlying cause of this issue is still being explored.  "],
  code [
    "# Pixel plot",
    "ax1 = plt.subplot(1,2,1)",
    "ax1.imshow(data, origin=\x27lower\x27, norm=norm,  cmap=\x27gray\x27)",
    "ax1.scatter(xc, yc, s=20, facecolor=\x27red\x27, edgecolor=\x27white\x27)",
    "ax1.set_xlabel(\x27x\x27)",
    "ax1.set_ylabel(\x27y\x27)",
    "ax1.set_title(\x27TessCut-Pixel\x27)",
    "",
    "# WCS plot",
    "ax2 = plt.subplot(1,2,2, projection=wcs)",
    "ax2.imshow(data, origin=\x27lower\x27, norm=norm,  cmap=\x27gray\x27)",
    "ax2.coords[\x27ra\x27].set_axislabel(\x27Right Ascension\x27)",
    "ax2.coords[\x27dec\x27].set_axislabel(\x27Declination\x27)",
    "ax2.scatter(tic_ra, tic_dec, transform=ax2.get_transform(\x27world\x27), s=20, facecolor=\x27red\x27, edgecolor=\x27white\x27)",
    "ax2.set_title(\x27TessCut-WCS\x27)",
    "",
    "ax1.figure.set_size_inches((15,15))",
    "ax2.figure.set_size_inches((15,15))"],
  md [
    "<a id=\"get_dss\"></a>",
    "## Retrieve the DSS image of the region",
    "To overlay the TESSCut image against the DSS image, we need to query the STScI DSS Cutout Image service.  First we define a custom function, \x60\x60getdss\x60\x60, to perform call.  This performs a basic http GET request to the given url and retrieves a DSS image cutout given some input parameters.  "],
  code [
    "url = \"https://archive.stsci.edu/cgi-bin/dss_search\"",
    "plateDict = \x7b\"red\": \"2r\", ",
    "             \"blue\": \"2b\", ",
    "             \"ukred\": \"poss2ukstu_red\", ",
    "             \"ukblue\": \"poss2ukstu_blue\"\x7d",
    "",
    "def getdss(ra, dec, plate=\"red\", height=None, width=None, ",
    "           filename=None, directory=None):",
    "",
    "    \"\"\"Extract DSS image at position and write a FITS file",
    "    ",
    "    ra, dec are J2000 coordinates in degrees",
    "    plate can be \"red\", \"blue\", \"ukred\", or \"ukblue\"",
    "    height and width are in arcmin, default = 7.0.  Image is square if only one is specified.",
    "    filename specifies name for output file (default=\"dss_\x7bplate\x7d_\x7bra\x7d_\x7bdec\x7d.fits\")",
    "    directory is location for output file (default is current directory)",
    "    ",
    "    Returns the name of the file that was written",
    "    \"\"\"",
    "",
    "    # set defaults for height & width",
    "    if height is None:",
    "        if width is not None:",
    "            height = width",
    "        else:",
    "            height = 7.0",
    "            width = 7.0",
    "    elif width is None:",
    "        width = height",
    "",
    "    try:",
    "        vplate = plateDict[plate]",
    "    except KeyError:",
    "        raise ValueError(\"Illegal plate value \x27\x7b\x7d\x27\\nShould be one of \x7b\x7d\".format(",
    "            plate,\x27, \x27.join(plateDict.keys())))",
    "",
    "    # construct filename",
    "    if filename is None:",
    "        filename = \"dss_\x7b\x7d_\x7b:.6f\x7d_\x7b:.6f\x7d.fits\".format(plate,ra,dec)",
    "    if directory:",
    "        filename = os.path.join(directory, filename)",
    "",
    "    params=\x7b\"r\": ra,",
    "            \"d\": dec,",
    "            \"v\": vplate,",
    "            \"e\": \"J2000\",",
    "            \"h\": height,",
    "            \"w\": width,",
    "            \"f\":\"fits\",",
    "            \"c\":\"none\",",
    "            \"s\": \"yes\"\x7d",
    "    r = requests.get(url, params=params)",
    "",
    "    # read and format the output",
    "    value = r.content",
    "    if not r.content.startswith(b\"SIMPLE  =\"):",
    "        raise ValueError(\"No FITS file returned for \x7b\x7d\".format(filename))",
    "    fhout = open(filename, \"wb\")",
    "    fhout.write(r.content)",
    "    fhout.close()",
    "    return filename"],
  md [
    "We pass in our target RA and Dec, along with the desired image size in arcminutes, and an optional download path.  "],
  code [
    "# compute the pixel area in arcmin",
    "arcmin = area.to(u.arcmin).value",
    "",
    "# retrieve the DSS file",
    "filename = getdss(ra, dec, height=arcmin, width=arcmin, directory=path)",
    "print(\x27DSS Image:\x27, filename)"],
  md [
    "Let\x27s display the DSS image and overlay the TIC catalog objects as a sanity check.  We use the same matplotlib plotting methods as before.  As before, this uses [WCSAxes](http://docs.astropy.org/en/stable/visualization/wcsaxes/index.html#wcsaxes) from Astropy to create a plot with correct WCS and overlay coordinate objects.  This time we create a DSS WCS object and use that when creating the plot.  We can also directly pass into a coordinate list of RA, Dec and transform the coordinates into the proper pixels using the DSS WCS.   "],
  code [
    "dss = fits.open(filename)",
    "",
    "# get the data and WCS for the DSS image",
    "dss_data = dss[0].data",
    "dss_wcs = WCS(dss[0].header)",
    "",
    "# display the DSS image and overlay the TIC objects",
    "ax = plt.subplot(projection=dss_wcs)",
    "ax.imshow(dss_data, origin=\x27lower\x27)",
    "ax.scatter(tic_ra, tic_dec, transform=ax.get_transform(\x27world\x27), s=20, facecolor=\x27red\x27, edgecolor=\x27white\x27)",
    "ax.figure.set_size_inches((8,8))",
    "ax.set_xlabel(\x27Right Ascension\x27)",
    "ax.set_ylabel(\x27Declination\x27)"],
  md [
    "<a id=\"overlay_images\"></a>",
    "## Overlay the TessCut Image",
    "To overlay the TESS Cutout against the DSS, we need to reproject the WCS of the TESS cutout onto the WCS of the DSS image, and the [reproject](https://reproject.readthedocs.io/en/stable/index.html) package.  We use the [reproject_interp](https://reproject.readthedocs.io/en/stable/api/reproject.reproject_interp.html#reproject.reproject_interp) method.  See [here](https://reproject.readthedocs.io/en/stable/celestial.html) for more details. ",
    "",
    "\x60\x60reproject_interp\x60\x60 takes two basic inputs.  ",
    "- input data+WCS we want to project from",
    "- output WCS we want to project onto.  ",
    "",
    "We want to project our TESS cutout and its WCS into the coordinate frame of the DSS image, using the DSS WCS.  Our input is a tuple of the custom TESS cutout data and wcs, i.e. \x60\x60(data, wcs)\x60\x60.  The desired coordinate frame is the WCS we want to project onto, i.e. \x60\x60dss_wcs\x60\x60.  We also need to provide the shape of the DSS data, with \x60shape_out\x60.  Finally we need to provide an interpolation method.  We use a \x60\x60nearest-neighbor\x60\x60 interpolation, which is the lowest order possible.  ",
    "",
    "\x60\x60reproject_interp\x60\x60 will take the input 11x11 pixel TESS cutout data, convert it to world coordinates using the TESS WCS, interpolate it into the shape of the DSS image (229x229) using the DSS WCS, and convert the data into DSS pixel coordinates.  ",
    "",
    "The final output is the reprojected TESS cutout data (\x60\x60reproj_tesscut\x60\x60) and the overlapping footprint of the input data in the output data (\x60\x60footprint\x60\x60).  ",
    ""],
  code [
    "# reproject the tesscut onto dss",
    "reproj_tesscut, footprint = reproject_interp((data, wcs,), dss_wcs, shape_out=dss_data.shape, order=\x27nearest-neighbor\x27)"],
  md [
    "Once reprojected, we can properly overly the DSS and TESSCut images.  We can add a slider for the opacity of the overlay using ipywidgets.  First we make a \x60create_plot\x60 function which accepts all the inputs we need to display the DSS image, and overlay the TESS cutout image and TIC objects.  "],
  code [
    "# create the function to overlay dss + tesscut + tic catalog",
    "def create_plot(background_img, foreground_img, alpha, norm, wcs, ra, dec):",
    "    \x27\x27\x27 create an interactive matplotlib image plot",
    "    ",
    "    Parameters:",
    "        background_img (ndarray):",
    "            The background image data to show",
    "        foreground_img (ndarray):",
    "            The foreground image data to overplot. ",
    "        alpha (tuple):",
    "            A tuple of min, max for the interactive slider.  ",
    "        norm:",
    "            The image normalization to use for the overlaid image.",
    "        wcs (astropy.wcs.wcs.WCS):",
    "            The WCS of the background image",
    "        ra (list):",
    "            A list of RA coordinate objects",
    "        dec (list):",
    "            A list of Dec coordinate objects",
    "    \x27\x27\x27",
    "    # create plot",
    "    ax = plt.subplot(projection=wcs)",
    "    ax.figure.set_size_inches((8,8))",
    "",
    "    # show image 1",
    "    ax.imshow(background_img, origin=\x27lower\x27)",
    "",
    "    # overlay image 2",
    "    ax.imshow(foreground_img, origin=\x27lower\x27, alpha=alpha, norm=norm, cmap=\x27gray\x27)",
    "",
    "    # overlay a list of objects",
    "    ax.scatter(ra, dec, transform=ax.get_transform(\x27world\x27), s=20, facecolor=\x27red\x27, edgecolor=\x27white\x27)",
    "",
    "    # add axis labels",
    "    ax.set_xlabel(\x27Right Ascension\x27)",
    "    ax.set_ylabel(\x27Declination\x27)"],
  md [
    "We use ipywidgets to create an interactive slider widget for the alpha/opacity of the TESS cutout image.  We use the [interactive](https://ipywidgets.readthedocs.io/en/stable/examples/Using%20Interact.html#interactive) function to produce an interactive widget.  It takes as input the main function we want to make interactive, in our case, \x60\x60create_plot\x60\x60.  You also need to pass in all the inputs to your custom function.  ",
    "",
    "To create a slider for alpha we pass in a tuple of **(min, max)** representing the minimum and maximum slider ranges.  All other inputs to our \x60\x60create_plot\x60\x60 function should be fixed.  We do not want interaction on these elements.  So we wrap all other inputs in the [fixed](https://ipywidgets.readthedocs.io/en/stable/examples/Using%20Interact.html#Fixing-arguments-using-fixed) function from \x60\x60ipywidgets\x60\x60.  This tells ipywidgets to use fix those inputs. ",
    "",
    "Our input background data is the DSS image data, \x60\x60dss_data\x60\x60.  The input image to overlay on top is the reprojected TESS data, \x60\x60reproj_tesscut\x60\x60.  We also pass in \x60norm\x60, the TESS cutout image normalization from before, as well as DSS wcs (\x60dss_wcs\x60), and the list of RA and Dec of the TIC objects, \x60\x60tic_ra, tic_dec\x60\x60. ",
    "",
    "Try moving the slider back and forth to control the opacity of the TESS cutout image against the DSS image. "],
  code [
    "# create an interactive ipywidget plot for the opacity of tesscut",
    "interactive_plot = interactive(create_plot, background_img=fixed(dss_data), foreground_img=fixed(reproj_tesscut), ",
    "                               alpha=(0.0,1.0), norm=fixed(norm), wcs=fixed(dss_wcs), ",
    "                               ra=fixed(tic_ra), dec=fixed(tic_dec))",
    "# display the plot",
    "output = interactive_plot.children[-1]",
    "output.layout.height = \x27500px\x27",
    "interactive_plot"],
  md [
    "<a id=\"resources\"></a>",
    "## Additional Resources",
    "[TESScut API Documentation](https://mast.stsci.edu/tesscut/)<br>",
    "[Astrocut Documentation](https://astrocut.readthedocs.io/en/latest/)<br>",
    "[TESS Homepage](https://archive.stsci.edu/tess)<br>",
    "[TESS Archive Manual](https://outerspace.stsci.edu/display/TESS/TESS+Archive+Manual)"],
  md [
    "<a id=\"about_ID\"></a>",
    "## About this Notebook",
    "**Author:** Brian Cherinka, STScI Archive Scientist",
    "<br>**Last Updated:** May 2023"],
  md [
    "[Top of Page](#title_ID)",
    "<img style=\"float: right;\" src=\"https://raw.githubusercontent.com/spacetelescope/notebooks/master/assets/stsci_pri_combo_mark_horizonal_white_bkgd.png\" alt=\"STScI logo\" width=\"200px\"/> "]
  ]

/-- Cells of notebooks/astroquery/wildcard_searches/wildcard_searches.ipynb. -/
def wildcard_searches : List Cell := [
  md [
    "# Wildcard Handling with Astroquery.mast"],
  md [
    "----"],
  md [
    "## Learning Goals"],
  md [
    "By the end of this tutorial, you will:",
    "",
    "* Use the wildcards available for \x60astroquery.mast.Observations\x60 criteria queries",
    "* Broaden and refine \x60astroquery.mast.Observations\x60 criteria queries",
    "* Fully utilize the \x60instrument_name\x60 criteria, especially for JWST queries",
    "* Query for moving targets using target ephemeris and time criteria such as \x60t_min\x60 and \x60t_max\x60"],
  md [
    "## Introduction"],
  md [
    "This Notebook demonstrates the use of wildcards in \x60astroquery.mast.Observations\x60 criteria queries. The use of wildcards is encouraged for certain criteria types (namely, \x60string\x60 object types) to ensure your query returns all results. ",
    "",
    "We will demonstrate 3 use-cases for wildcards when doing criteria queries and emphasize certain criteria where wildcard usage is highly encouraged, particularly for JWST queries. We will also use the last example to demonstrate the use of value ranges when working with \x60float\x60 object criteria types.",
    "",
    "The workflow for this notebook consists of:",
    "",
    "* [Wildcard overview with \x60astroquery.mast.Observations\x60](#overview)",
    "    1. [Wildcard Search with \x60instrument_name\x60](#case1)",
    "    2. [Wildcard Search with \x60instrument_name\x60 and \x60proposal_id\x60](#case2)",
    "    3. [Wildcard Search a Time-sensitive Object with \x60target_name\x60 and \x60t_min\x60](#case3)",
    "* Resources"],
  md [
    "## Imports"],
  code [
    "import astropy.units as u",
    "import matplotlib.pyplot as plt",
    "",
    "from astropy.coordinates import SkyCoord",
    "from astropy.table import Table, unique, vstack",
    "from astropy.time import Time",
    "from astroquery.mast import Observations"],
  md [
    "----"],
  md [
    "<a id=\"overview\"></a>",
    "## Wildcards with \x60astroquery.mast.Observations\x60"],
  md [
    "The use of wildcards when making \x60astroquery.mast.Observations\x60 queries can help ensure you retrieve all observations without leaving anything out. The available wildcards are \x60%\x60 and \x60*\x60: \x60%\x60 replaces a single character, while \x60*\x60 replaces more than one character preceding, following, or in between the existing characters, depending on its placement. See the [Observation Criteria Queries](https://astroquery.readthedocs.io/en/latest/mast/mast.html#observation-criteria-queries) section in the \x60astroquery.mast\x60 documentation for more information on the wildcards.",
    "",
    "Wildcards are only available for certain criteria. \x60string\x60 type objects accept wildcards, but \x60float\x60, \x60integer\x60, or any other objects do not accept wildcards.",
    "",
    "Users may call the \x60get_metadata\x60 method to see the list of query criteria and their data types. The criteria listed as \x60string\x60 objects under the **Data Type** column are criteria that can be called with wildcards:"],
  code [
    "Observations.get_metadata(\"observations\")"],
  md [
    "<a id=\"case1\"></a>",
    "### Case 1: Wildcard Search with \x60instrument_name\x60"],
  md [
    "For our first example we will search for all NIRISS observations taken by a certain proposal/program PI. Our two query criteria are \x60proposal_pi\x60 and \x60instrument_name\x60, which are both \x60string\x60 object criteria. As such, both can be wildcarded for ease of use. ",
    "",
    "In fact, it is sometimes necessary to use wildcards when searching on \x60instrument_name\x60. Both HST and JWST use instrument configurations in this field to allow for more precise advanced searches (e.g. NIRISS/IMAGE and STIS/FUV-MAMA). When performing a \"generic\" search, you must include a wildcard or these more detailed results will be excluded.",
    "",
    "We will demonstrate this by looking at the results for the query below:"],
  code [
    "observations = Observations.query_criteria(proposal_pi=\"Espinoza, Nestor\",",
    "                                           instrument_name=\"NIRISS*\")",
    "observations"],
  md [
    "Our query returned many NIRISS observations led by the PI Dr. Espinoza. Let\x27s get all the unique values under the \x60instrument_name\x60 column to see what our \x60*\x60 wildcard picked up."],
  code [
    "set(observations[\x27instrument_name\x27])"],
  md [
    "Our observations have the advanced labeling; had we simply set \x60instrument_name = \"NIRISS\"\x60, we would have missed several observations. For more details on this advanced labeling, see the [JWST Instrument Names page](https://outerspace.stsci.edu/display/MASTDOCS/JWST+Instrument+Names)."],
  md [
    "#### A note of caution: There is such a thing as too many wildcards",
    "",
    "You can be too generous with the wildcards, so be sure to exercise caution in their use. Too much ambiguity can lead to unintended results. Let\x27s take a look at our example below."],
  code [
    "observations = Observations.query_criteria(proposal_pi=\x27Espinoza, Nestor\x27,",
    "                                           instrument_name=\x27NIR*\x27) # Surely only one instrument begins with \x27NIR\x27",
    "set(observations[\x27instrument_name\x27])"],
  md [
    "This query returns \x60NIRSPEC/SLIT\x60 observations in addition to the NIRISS ones, which is not what we intended."],
  md [
    "<a id=\"case2\"></a>",
    "### Case 2: Wildcard Search with \x60instrument_name\x60 and \x60proposal_id\x60"],
  md [
    "Let\x27s add an additional \x60string\x60 criterion and wildcard into the mix. We\x27ll do this with the \x60proposal_id\x60 field which, despite its numeric content, is encoded as a string.",
    "",
    "Let\x27s query for a four digit proposal/program IDs that begin with \x6015\x60."],
  code [
    "observations = Observations.query_criteria(proposal_pi=\x27Espinoza, Nestor\x27,",
    "                                           instrument_name=\x27NIRISS*\x27,",
    "                                           proposal_id=[\x2715%%\x27]) # Only a four digit result will match this",
    "",
    "set(observations[\x27proposal_id\x27]), set(observations[\x27instrument_name\x27])"],
  md [
    "<a id=\"case3\"></a>",
    "### Case 3: Create a Moving Target Ephemeris using MAST Observations with Wildcard Search"],
  md [
    "We will be querying for image observations of Comet 67P Churyumov-Gerasimenko observed through the Hubble Space Telescope\x27s Advanced Camera for Surveys (ACS) Wide Field Camera (WFC). This comet\x27s name can be listed in different ways, so we will use \x60*\x60 wildcards in our criteria query."],
  code [
    "observations = Observations.query_criteria(target_name=\"*67P*\",",
    "                                           instrument_name=\"ACS/WFC\")",
    "",
    "print(f\"\x7blen(observations)\x7d total observations\" + \"\\n\")",
    "print(\"Listed target names:\")",
    "print(set(observations[\x27target_name\x27]))"],
  md [
    "Above there are two names we get for Comet-67P. You should exercise caution when searching on the \x60target_name\x60 criteria, since this is often entered by the PI who proposed the observation and can vary from person to person.",
    "",
    "In the remainder of this notebook, we will construct a bare-bones ephemeris using the filtered MAST observations of this object and their metadata. We will then do some reverse engineering to query for the target based on coordinates using the ephemeris table, and hope that we get the same results back! Let\x27s begin:",
    "",
    "For simplicity, let\x27s work only with the \x60\x27COMET-67P-CHURYUMOV-GERASIMENK\x27\x60 observations to create our ephemeris."],
  code [
    "mask = observations[\"target_name\"] == \"COMET-67P-CHURYUMOV-GERASIMENK\"",
    "filtered_observations = observations[mask]",
    "filtered_observations"],
  md [
    "Now that we have our filtered observations, let\x27s sort the rows of this table based on the \x60t_min\x60 criteria, which refers to the start time of the exposure in MJD."],
  code [
    "filtered_observations.sort(\"t_min\")"],
  md [
    "Now that we\x27ve sorted our table, let\x27s construct a basic ephemeris showing the path of our object over time (with \x60t_min\x60, or exposure start in MJD, as our time component):"],
  code [
    "ephemeris = Table([filtered_observations[\"s_ra\"],",
    "                   filtered_observations[\"s_dec\"],",
    "                   filtered_observations[\"t_min\"]], names=(\"ra\", \"dec\", \"t_min\"))"],
  md [
    "Let\x27s display the contents of our ephemeris, and use it to generate a plot of the comet\x27s path:"],
  code [
    "ephemeris.sort(\"t_min\")",
    "ephemeris"],
  code [
    "plt.figure(figsize=(12,8))",
    "plt.scatter(ephemeris[0:18][\x27ra\x27], ephemeris[0:18][\x27dec\x27], color=\x27royalblue\x27, s=200, lw=1., edgecolor=\x27k\x27)",
    "",
    "plt.xlabel(\"Right Ascension (deg)\", fontsize=20)",
    "plt.ylabel(\"Declination (deg)\", fontsize=20)",
    "",
    "plt.title(\"Sky Coordinates\", fontsize=20)",
    "",
    "plt.xticks(fontsize=15)",
    "plt.yticks(fontsize=15)",
    "plt.grid()"],
  md [
    "You can choose to save the ephemeris table in your current working directory by running the cell below:"],
  code [
    "ephemeris.write(\x27ephemeris-comet67p-cg.csv\x27, format=\x27ascii\x27)  "],
  md [
    "## Resources"],
  md [
    "The following is a list of resources that were referenced throughout the tutorial, as well as some additional references that you may find useful:",
    "",
    "* [\x60astroquery.mast.Observation\x60 criteria queries](https://astroquery.readthedocs.io/en/latest/mast/mast.html#observation-criteria-queries)",
    "* [JWST Instrument Names](https://outerspace.stsci.edu/display/MASTDOCS/JWST+Instrument+Names)"],
  md [
    "## Citations"],
  md [
    "If you use any of astroquery\x27s tools for published research, please cite the authors. Follow this link for more information about citing astroquery:",
    "",
    "* [Citing astroquery](https://github.com/astropy/astroquery/blob/main/astroquery/CITATION)"],
  md [
    "## About This Notebook"],
  md [
    "If you have comments or questions on this notebook, please contact us through the Archive Help Desk e-mail at archive@stsci.edu. <br>",
    "<br>",
    "Author: Jenny V. Medina <br>",
    "Keywords: astroquery, wildcards, moving target <br>",
    "Last Updated: Jun 2023"]
  ]

/-- Cells of contributing/notebook_template/notebook_template.ipynb. -/
def notebook_template : List Cell := [
  md [
    "<a id=\"top\"></a>",
    "# Tutorial Title",
    "***",
    "## Learning Goals",
    "Write three to five learning goals. A learning goal should describe what a reader should know or be able to do by the end of the tutorial that they didn\x27t know or couldn\x27t do before:",
    "",
    "\x60\x60\x60",
    "By the end of this tutorial, you will:",
    "",
    "- Understand how to use aperture photometry to turn a series of two-dimensional",
    "  images into a one-dimensional time series.",
    "- Be able to determine the most useful aperture for photometry on a *Kepler/K2*",
    "  target.",
    "- Create your own light curve for a single quarter/campaign of *Kepler/K2* data.",
    "\x60\x60\x60"],
  md [
    "## Introduction",
    "Write a short introduction explaining the purpose of the tutorial. Define any terms or common acronyms that your audience may not know. If you\x27re using some kind of domain-specific astronomical symbol or unusual mathematical concept, make sure you define it (for example, in its mathematical form) and link to any definitions (from literature, Wikipedia, etc.).",
    "",
    "If there are background materials or resources that may be useful to the reader to provide additional context, you may link to it here. If your tutorial is a continuation from another tutorial, or there are other tutorials that would be useful for the reader to read before or after your tutorial, mention that here as well.",
    "",
    "Finally, under this section you should add a description of the workflow in your notebook. This will essentially be a table of contents outlining the functional cells of the notebook, i.e. the main sections. Each section should link users to the actual section for easier navigation through the notebook. Refer to the example below for how to hyperlink sections on a Jupyter Notebook: ",
    "",
    "",
    "The workflow for this notebook consists of:",
    "* [Main Content](#Main-Content)",
    "    * [Loading Data](#Loading-Data)",
    "    * [File and Data Information](#File-and-Data-Information)",
    "* [Visualization](#Visualization)",
    "* [Exercises](#Exercises)",
    "* [Additional Resources](#Additional-Resources)"],
  md [
    "## Imports",
    "Describe the main packages we\x27re using here and their use-case for this notebook. If there\x27s something unusual, explain what the library is, and why we need it.",
    "- *numpy* to handle array functions",
    "- *astropy.io fits* for accessing FITS files",
    "- *astropy.table Table* for creating tidy tables of the data",
    "- *matplotlib.pyplot* for plotting data"],
  code [
    "%matplotlib inline",
    "",
    "import matplotlib.pyplot as plt",
    "import numpy as np",
    "",
    "from astropy.io import fits",
    "from astropy.table import Table",
    "from astroquery.mast import Mast",
    "from astroquery.mast import Observations"],
  md [
    "***"],
  md [
    "## Main Content",
    "",
    "The main content of your tutorial should be subdivided into sections with useful, descriptive headings that make sense based on the content. Break sections up with standard Markdown syntax headings:",
    "",
    "\x60\x60\x60",
    "## Section 1",
    "",
    "Intro to Section 1",
    "",
    "### Subsection 1a",
    "",
    "More detailed info about Section 1",
    "",
    "## Section 2",
    "",
    "A complete thought that\x27s as important as Section 1 but doesn\x27t need subsections.",
    "",
    "\x60\x60\x60"],
  md [
    "### Loading Data",
    "",
    "Loading data and file information should appear within your main content, at the same time the data is going to be used, if possible. These elements of your tutorial can be their own sections within the main content, but avoid generic or vague headings like \u201cLoading Data\u201d and instead use descriptive headings pertinent to the content of the tutorial and the actual data being downloaded or files being used.",
    "",
    "If the user needs to download data to run the tutorial properly, where possible, use [astroquery](https://astroquery.readthedocs.io/en/latest/) (or similar) to retrieve files. If this is not possible, see the [data guide](https://github.com/spacetelescope/style-guides/blob/master/guides/where-to-put-your-data.md) for other options."],
  md [
    "For example, if we wanted to query for data from MAST for Kepler we might do something like:"],
  code [
    "keplerObs = Observations.query_criteria(target_name=\x27kplr008957091\x27, obs_collection=\x27Kepler\x27)",
    "keplerProds = Observations.get_product_list(keplerObs[0])",
    "yourProd = Observations.filter_products(keplerProds,extension=\x27kplr008957091-2012277125453_lpd-targ.fits.gz\x27,",
    "                                        mrp_only=False)"],
  md [
    "### File and Data Information"],
  md [
    "Where possible (if the code supports it), use code examples that visually display the data in the tutorial. For example, if you are showing an object such as a Table, display a preview of the table:"],
  code [
    "yourProd[0:5]"],
  code [
    "# Download the products",
    "output = Observations.download_products(yourProd, mrp_only=False, cache=False)",
    "output"],
  md [
    "Explain pertinent details about the file you\x27ve just downloaded. For example, if working with Kepler light curves, explain what\x27s in the different file extensions:",
    "",
    "\x60\x60\x60",
    "- No. 0 (Primary): This HDU contains metadata related to the entire file.",
    "- No. 1 (Light curve): This HDU contains a binary table that holds data like",
    "  flux measurements and times. We will extract information from here when we",
    "  define the parameters for the light curve plot.",
    "- No. 2 (Aperture): This HDU contains the image extension with data collected",
    "  from the aperture. We will also use this to display a bitmask plot that",
    "  visually represents the optimal aperture used to create the SAP_FLUX column in",
    "  HDU1.",
    "",
    "\x60\x60\x60"],
  code [
    "file = output[\x27Local Path\x27][0]",
    "print(\x27The HDU list of our output file:\\n\x27)",
    "print(fits.info(file))",
    "",
    "data = fits.getdata(file, 1)[\x27FLUX\x27]",
    "time = fits.getdata(file, 1)[\x27TIME\x27]"],
  md [
    "## Visualization",
    "",
    "When presenting any visuals and/or plots from the data, make sure you are using color palettes that are color-blind friendly and using language that keeps accessibility in mind. The most common form of color vision deficiency involves differentiating between red and green, so avoiding colormaps with both red and green will avoid many problems in general. Use descriptive keywords not pertaining to the color of the object you are referring to. It is good practice to make your plots and images large enough to ensure that important details are not hard to see. On the same note, make sure that tick labels, legends, and other plot notations are not too small, and make sure they are descriptive enough that the user can understand what is being represented by the data. "],
  md [
    "Let\x27s plot the first four images of the Kepler TPF we just downloaded to see where the center of the PSF is located..."],
  code [
    "imgs = 4",
    "",
    "fig, axs = plt.subplots(1, imgs, figsize=(20, 20))",
    "",
    "for idx in range(0, imgs):",
    "    # Plotting",
    "    axs[idx].imshow(data[idx], cmap=\x27bone\x27, origin=\x27lower\x27)",
    "    ",
    "    # Formatting",
    "    axs[idx].set_title(f\x27Image #\x7bidx\x7d\x27, fontsize=25)",
    "    axs[idx].tick_params(axis=\x27both\x27, which=\x27major\x27, labelsize=20)"],
  md [
    "Looks like it\x27s typically located around (x,y)=(4,4). Let\x27s gather all the images and extract the flux at (4,4) from each of them to patch our lightcurve together..."],
  code [
    "lightcurve = []",
    "",
    "for idx in range(0, len(data)):",
    "    ",
    "    flux = data[idx][4, 4]",
    "    lightcurve.append(flux)"],
  code [
    "# Plotting",
    "plt.figure(1, figsize=(10, 6))",
    "plt.plot(time, lightcurve)",
    "",
    "# Formatting",
    "obj = fits.getheader(file)[\x27OBJECT\x27]",
    "plt.title(f\x27Object: \x7bobj\x7d\x27, fontsize=25)",
    "plt.xlabel(\x27Time - 2454833 (BKJD days)\x27, fontsize=20)",
    "plt.ylabel(\x27Flux (e-/s)\x27, fontsize=20)",
    "plt.tick_params(axis=\x27both\x27, which=\x27major\x27, labelsize=15)"],
  md [
    "## Exercises",
    "Exercises are optional, but encouraged. Exercises can be woven into the main content of your tutorial, or appear in their own section toward the end of the tutorial. Final exercises can be more challenging, similar to homework problems. They can be minimal or take as long as 30 minutes to an hour to complete. If you do have one or more exercises in your tutorial, be sure to leave a blank code cell underneath each to show the reader that they\x27re meant to try out their new skill right there. You may also want to include a \"solutions\" notebook next to your main notebook for the reader to check their work after they have finished their attempt."],
  md [
    "## Additional Resources",
    "",
    "This section is optional. Try to weave resource links into the main content of your tutorial so that they are falling in line with the context of your writing. For resources that do not fit cleanly into your narrative, you may include an additional resources section at the end of your tutorial. Usually a list of links using Markdown bullet list plus link format is appropriate:",
    "",
    "- [MAST API](https://mast.stsci.edu/api/v0/index.html)",
    "- [Kepler Archive Page (MAST)](https://archive.stsci.edu/kepler/)",
    "- [Kepler Archive Manual](https://archive.stsci.edu/kepler/manuals/archive_manual.pdf)",
    "- [Exo.MAST website](https://exo.mast.stsci.edu/)"],
  md [
    "## Citations",
    "Provide your reader with guidelines on how to cite open source software and other resources in their own published work.",
    "",
    "\x60\x60\x60",
    "If you use \x60astropy\x60 or \x60lightkurve\x60 for published research, please cite the",
    "authors. Follow these links for more information about citing \x60astropy\x60 and",
    "\x60lightkurve\x60:",
    "",
    "* [Citing \x60astropy\x60](https://www.astropy.org/acknowledging.html)",
    "* [Citing \x60lightkurve\x60](http://docs.lightkurve.org/about/citing.html)",
    "",
    "\x60\x60\x60"],
  md [
    "## About this Notebook",
    "Let the world know who the author of this great tutorial is! If possible and appropriate, include a contact email address for users who might need support (for example, \x60archive@stsci.edu\x60). You can also optionally include keywords, your funding source, or a last update date in this section.",
    "",
    "**Author(s):** Jessie Blogs, Jenny V. Medina, Thomas Dutkiewicz <br>",
    "**Keyword(s):** Tutorial, lightkurve, kepler, introduction, template <br>",
    "**Last Updated:** Aug 2022 <br>",
    "**Next Review:** Mar 2023",
    "***",
    "[Top of Page](#top)",
    "<img style=\"float: right;\" src=\"https://raw.githubusercontent.com/spacetelescope/notebooks/master/assets/stsci_pri_combo_mark_horizonal_white_bkgd.png\" alt=\"Space Telescope Logo\" width=\"200px\"/> "]
  ]

/-- Cells of the asteroid-rotation solutions notebook (the repository file whose original path is unknown; its source is the notebook JSON of "Finding the Rotation Curve of an Asteroid or Comet with TESScut and lightkurve: Solutions"). -/
def asteroid_rotation_solutions : List Cell := [
  md [
    "<a id=\"Top\"></a>",
    "",
    "# Finding the Rotation Curve of an Asteroid or Comet with TESScut and lightkurve: Solutions"],
  md [
    "Before the solutions can be run, this code reproduces the necessary variables from the tutorial into this notebook.",
    "",
    "# Contents",
    "* [Imports, prerequisite cells](#Imports,-Prerequisite-Cells)",
    "1. [Confirm lightcurve truncation is appropriate.](#1)",
    "2. [Confirm remove_outlier cutoff value is appropriate.](#2)",
    "3. [Is rotation period changed by sector?](#3)",
    "4. [Use the TESSCut website to download more observations.](#4)",
    "5. [Find the rotation period of Hippodamia.](#5)",
    "6. [Why is the median flux of first sector\x27s observations lower than the second?](#6)",
    "",
    "",
    "# Imports, Prerequisite Cells"],
  code [
    "from astropy.io import fits",
    "from astropy.table import Table",
    "import astropy.units as u",
    "import matplotlib.pyplot as plt",
    "import numpy as np",
    "",
    "from astroquery.mast import Tesscut",
    "from astropy.visualization import time_support",
    "import lightkurve as lk",
    "",
    "%matplotlib inline"],
  code [
    "objname=\x27Eleonora\x27",
    "",
    "hdulist = Tesscut.get_cutouts(objectname=objname, moving_target=True, size=10)",
    "",
    "nsectors=len(hdulist)",
    "for i in range(nsectors): ",
    "    hdulist[i].writeto(f\"\x7bobjname\x7d_\x7bi\x7d.fits\", overwrite=True)",
    "    ",
    "for i in range(nsectors):",
    "    tpf = lk.TessTargetPixelFile(f\"\x7bobjname\x7d_\x7bi\x7d.fits\")",
    "    if i==0: ",
    "        tpfc=lk.TargetPixelFileCollection([tpf])",
    "    else:",
    "        tpfc.append(tpf)"],
  code [
    "for i in range(nsectors):",
    "    lc=tpfc[i].to_lightcurve()",
    "    if i==0: ",
    "        lcc=lk.LightCurveCollection([lc])",
    "    else:",
    "        lcc.append(lc)    ",
    "lcc[0]=lcc[0].truncate(after=293,column=\x27cadenceno\x27)",
    "lcc[1]=lcc[1].truncate(before=59,column=\x27cadenceno\x27)",
    "lcc[1]=lcc[1].remove_outliers(sigma_upper=2)"],
  md [
    "<a id=\"1\"></a>",
    "# 1. Confirm that the first lightcurve in our hdulist should be truncated after cadence number 293. "],
  code [
    "# Place for code for Exercise 1",
    "# The easiest way to do this is to inspect the first TPF and see that ",
    "# cadence 293 is the last one before one column of the image becomes cut off.",
    "tpfc[0].interact()"],
  md [
    "<a id=\"2\"></a>",
    "# 2. Confirm that using a \x60remove_outlier\x60 cutoff of \x60sigma_upper=2\x60 did not affect the other cadences of the lightcurve for the second sector. ",
    "",
    "At this point in the tutorial, the second sector\x27s original light curve is still saved under the variable name \x60lc\x60; plot a graph of its time vs. flux columns and then overplot our sigma-clipped time and flux columns. Hint: You\x27ll need to load \x60time_support()\x60 first in order to use the time column in matplotlib. "],
  code [
    "# SOLUTION FOR EXERCISE 2",
    "time_support()",
    "plt.plot(lc.time,lc.flux)",
    "plt.plot(lcc[1].time,lcc[1].flux)",
    "plt.ylim(30000,36000) # Need to zoom in to see the two."],
  md [
    "<a id=\"3\"></a>",
    "# 3. Determine if the rotation period returned by \x60lightkurve\x60 is different when using only one sector\x27s light curve at a time. "],
  code [
    "# SOLUTION FOR EXERCISE 3",
    "pg0=lcc[0].to_periodogram()",
    "pg1=lcc[1].to_periodogram()",
    "print(pg0.period_at_max_power.to(u.hr))",
    "print(pg1.period_at_max_power.to(u.hr))",
    "# To 3 significant figures, lightkurve returns the same period (in hours) ",
    "# with either light curve individually or with the two light curves combined."],
  code [
    "# SOLUTION FOR EXERCISE 4",
    "",
    "# Using the default filenames from the website at the time of the writing of this tutorial:",
    "diff1=fits.FITSDiff(\x27Eleonora_0.fits\x27,\x27Eleonora_1468.2870040465345-1475.8494727152606_10.0-x-10.0_astrocut.fits\x27,numdiffs=-1)",
    "print(diff1.identical)",
    "print(diff1.report())",
    "",
    "# The only differences appera to be in \"CHECKSUM\" and \"DATASUM\" values, which seem to correspond to the ",
    "# timestamps when the files were saved. Try ignoring those values. ",
    "diff1_ignore=fits.FITSDiff(\x27Eleonora_0.fits\x27,",
    "                           \x27Eleonora_1468.2870040465345-1475.8494727152606_10.0-x-10.0_astrocut.fits\x27,",
    "                           numdiffs=-1,ignore_keywords=[\x27CHECKSUM\x27,\x27DATASUM\x27])",
    "print(diff1_ignore.identical)",
    "# Do the same for the other file.",
    "diff2_ignore=fits.FITSDiff(\x27Eleonora_1.fits\x27,",
    "                           \x27Eleonora_1945.4743041992188-1954.8493041992188_10.0-x-10.0_astrocut.fits\x27,",
    "                           numdiffs=-1,ignore_keywords=[\x27CHECKSUM\x27,\x27DATASUM\x27])",
    "print(diff2_ignore.identical)"],
  md [
    "<a id=\"4\"></a>",
    "# 4. Try recreating the procedure above to find the rotation period for a fainter (higher magnitude) small body from [P\u00e1l et al. 2020](https://ui.adsabs.harvard.edu/abs/2020ApJS..247...26P/abstract) such as Hippodamia. ",
    "What issues do you encounter in this case?"],
  code [
    "# SOLUTION FOR EXERCISE 5",
    "objname2=\x27Hippodamia\x27",
    "sector_table2=Tesscut.get_sectors(objectname=objname2, moving_target=True)",
    "print(sector_table2)",
    "# Because there is only one sector, we do not need the loops",
    "# that we did for Eleonora. ",
    "hdulist2 = Tesscut.get_cutouts(objectname=objname2, moving_target=True, size=10)"],
  code [
    "i=0",
    "hdulist2[i].writeto(objname2+\x27_\x27+str(i)+\x27.fits\x27,overwrite=True)",
    "tpf2 = lk.TessTargetPixelFile(objname2+\x27_\x27+str(i)+\x27.fits\x27)",
    "tpf2.interact()"],
  md [
    "After scrolling through the cadences, it\x27s clear that Hippodamia passes in front of many stars that significantly impact the flux in the aperture. Since Hippodamia is so much dimmer, the influence on the light curve is much more pronounced than for Eleonora. We can try to use a similar outlier removal, but so many of the flux data points are high, it will likely not work. Generally, differential photometry (comparing images before the asteroid appears and after) is required. Because Hippodamia\x27s period is relatively short, (P=8.9993 hr), we can try to cutout the few days around cadences 365-460 to see if we can find the rotation period from that."],
  code [
    "lc2=tpf2.to_lightcurve()",
    "lc2=lc2.truncate(before=365,after=460,column=\x27cadenceno\x27)",
    "lc2.plot()"],
  code [
    "pg2=lc2.to_periodogram()",
    "pg2.plot()",
    "print(pg2.period_at_max_power.to(u.hr))",
    "print(2*pg2.period_at_max_power.to(u.hr))",
    ""],
  code [
    "# Again, our result is close to 1/2 times to the accepted period. ",
    "lc2.fold(period=2*pg2.period_at_max_power).scatter()"],
  md [
    "<a id=\"5\"></a>",
    "# 5. Use [astroquery\x27s Minor Planet Center Queries (MPC)](https://astroquery.readthedocs.io/en/latest/mpc/mpc.html?highlight=mpc#ephemerides) \x60get_ephemeris\x60 feature to investigate why the median flux for the first sector\x27s observations is lower than for the second sector\x27s observations. ",
    "The times of each cadence are in the light curve\x27s \x60time\x60 column."],
  code [
    "# SOLUTION FOR EXERCISE 6.",
    "from astroquery.mpc import MPC",
    "# Get tables for each start and end time. Just view the first row.",
    "eph1=MPC.get_ephemeris(\x27Eleonora\x27,start=lcc[0].time[0])",
    "eph2=MPC.get_ephemeris(\x27Eleonora\x27,start=lcc[0].time[-1])",
    "eph3=MPC.get_ephemeris(\x27Eleonora\x27,start=lcc[1].time[0])",
    "eph4=MPC.get_ephemeris(\x27Eleonora\x27,start=lcc[1].time[-1])",
    "columns=[\x27Date\x27,\x27RA\x27,\x27Dec\x27,\x27Delta\x27,\x27r\x27,\x27Elongation\x27,\x27Phase\x27,\x27V\x27]",
    "print(eph1[columns][0])",
    "print(eph2[columns][0])",
    "print(eph3[columns][0])",
    "print(eph4[columns][0])"],
  code [
    "# Compare the medians of the two fluxes.",
    "print(np.median(lcc[0].flux))",
    "print(np.median(lcc[1].flux))",
    "print((np.median(lcc[1].flux)-np.median(lcc[0].flux))/np.median(lcc[0].flux))"],
  md [
    "During the second sector, Eleonora was 2.0-2.2% closer than the first, but the median flux was nearly 12% higher and the MPC doesn\x27t report any difference in V magnitude.",
    "***",
    "[Back to top](#Top)",
    "",
    "<img style=\"float: right;\" src=\"https://raw.githubusercontent.com/spacetelescope/notebooks/master/assets/stsci_pri_combo_mark_horizonal_white_bkgd.png\" alt=\"Space Telescope Logo\" width=\"200px\"/> "]
  ]

/-- The raw lines of _toc.yml. -/
def tocLines : List String := [
  "# Table of contents",
  "# Learn more at https://jupyterbook.org/customize/toc.html",
  "format: jb-book",
  "root: intro",
  "parts:",
  "  - caption: Astrocut",
  "    chapters:",
  "    - file:  notebooks/astrocut/making_tess_cubes_and_cutouts/making_tess_cubes_and_cutouts.ipynb",
  "    ",
  "  - caption: Astroquery",
  "    chapters:",
  "    - file:  notebooks/astroquery/intro.md",
  "    - file:  notebooks/astroquery/nb.md",
  "      sections:",
  "        - file:  notebooks/astroquery/beginner_search/beginner_search.ipynb",
  "        - file:  notebooks/astroquery/beginner_zcut/beginner_zcut.ipynb",
  "        - file:  notebooks/astroquery/large_downloads/large_downloads.ipynb",
  "        - file:  notebooks/astroquery/historic_quasar_observations/historic_quasar_observations.ipynb",
  "        ",
  "  - caption: GALEX",
  "    chapters:",
  "    - file:  notebooks/GALEX/mis-mosaic/mis-mosaic.ipynb",
  " ",
  "  - caption: HSC",
  "    chapters:",
  "    - file:  notebooks/HSC/HCV_API/HCV_API_demo.ipynb",
  "    - file:  notebooks/MAST/HSC/HCV_CASJOBS/HCV_casjobs_demo.ipynb",
  "    - file:  notebooks/HSC/HSCV3_API/hscv3_api.ipynb",
  "    - file:  notebooks/HSC/HSCV3_SMC_API/hscv3_smc_api.ipynb",
  "    - file:  notebooks/HSC/HSC_TAP/HSC_TAP.ipynb",
  "    - file:  notebooks/HSC/SWEEPS_HSCV3P1/sweeps_hscv3p1.ipynb",
  "    - file:  notebooks/MAST/HSC/SWEEPS_HSCV3P1_API/sweeps_hscv3p1_api.ipynb",
  "    ",
  "  - caption: IUE",
  "    chapters:",
  "    - file: notebooks/IUE/exploring_UV_extinction_curves/exploring_UV_extinction_curves.ipynb",
  "    ",
  "  - caption: JWST",
  "    chapters:",
  "    - file:  notebooks/JWST/download_by_program_id/download_by_program_id.ipynb",
  "    - file:  notebooks/JWST/Engineering_Database_Retreival/EDB_Retrieval.ipynb",
  "    - file:  notebooks/JWST/SI_keyword_exoplanet_search/SI_keyword_exoplanet_search.ipynb",
  "    ",
  "  - caption: Kepler",
  "    chapters:",
  "    - file:  notebooks/Kepler/beginner.md",
  "      sections:",
  "        - file: notebooks/Kepler/plotting_lightcurves/plotting_lightcurves.ipynb",
  "        - file: notebooks/Kepler/plotting_images_from_tpf/plotting_images_from_tpf.ipynb",
  "        - file: notebooks/Kepler/plotting_dvts/plotting_dvts.ipynb",
  "        - file: notebooks/Kepler/plotting_catalog_over_FFI/plotting_catalog_over_FFI.ipynb",
  "    - file:  notebooks/Kepler/lightkurve.md",
  "      sections:",
  "        - file: notebooks/Kepler/lightkurve_analyzing_lc_products/lightkurve_analyzing_lc_products.ipynb",
  "        - file: notebooks/Kepler/lightkurve_analyzing_tpf_products/lightkurve_analyzing_tpf_products.ipynb",
  "        - file: notebooks/Kepler/lightkurve_searching_for_data/lightkurve_searching_for_data.ipynb",
  "        - file: notebooks/Kepler/lightkurve_custom_aperture_photometry/lightkurve_custom_aperture_photometry.ipynb",
  "        - file: notebooks/Kepler/lightkurve_combining_multiple_quarters/lightkurve_combining_multiple_quarters.ipynb",
  "        - file: notebooks/Kepler/lightkurve_interactively_inspecting_TPFs_and_LCs/lightkurve_interactively_inspecting_TPFs_and_LCs.ipynb",
  "    - file:  notebooks/Kepler/inst_noise.md",
  "      sections:",
  "        - file:  notebooks/Kepler/instrumental_noise_1_data_gaps_and_quality_flags/instrumental_noise_1_data_gaps_and_quality_flags.ipynb",
  "        - file:  notebooks/Kepler/instrumental_noise_2_spurious_signals_and_time_sampling_effects/instrumental_noise_2_spurious_signals_and_time_sampling_effects.ipynb",
  "        - file:  notebooks/Kepler/instrumental_noise_3_seasonal_and_detector_effects/instrumental_noise_3_seasonal_and_detector_effects.ipynb",
  "        - file:  notebooks/Kepler/instrumental_noise_4_electronic_noise/instrumental_noise_4_electronic_noise.ipynb",
  "    - file:  notebooks/Kepler/signals.md",
  "      sections:",
  "        - file:  notebooks/Kepler/identifying_transiting_planet_signals/identifying_transiting_planet_signals.ipynb",
  "        - file:  notebooks/Kepler/measuring_a_rotation_period/measuring_a_rotation_period.ipynb",
  "        - file:  notebooks/Kepler/visualizing_periodic_signals_using_a_river_plot/visualizing_periodic_signals_using_a_river_plot.ipynb",
  "        - file:  notebooks/Kepler/verifying_the_location_of_a_signal/verifying_the_location_of_a_signal.ipynb",
  "    - file:  notebooks/Kepler/periodograms.md",
  "      sections:",
  "        - file:  notebooks/Kepler/creating_periodograms/creating_periodograms.ipynb",
  "        - file:  notebooks/Kepler/how_to_understand_and_manipulate_the_periodogram_of_an_oscillating_star/how_to_understand_and_manipulate_the_periodogram_of_an_oscillating_star.ipynb",
  "        - file:  notebooks/Kepler/how_to_estimate_a_stars_mass_and_radius_using_asteroseismology/how_to_estimate_a_stars_mass_and_radius_using_asteroseismology.ipynb",
  " ",
  "  - caption: K2",
  "    chapters:",
  "    - file:  notebooks/K2/lightcurve/lightcurve.ipynb",
  "    - file:  notebooks/K2/TPF/TPF.ipynb",
  "    - file:  notebooks/K2/beginner_how_to_use_ffi/beginner_how_to_use_ffi.ipynb",
  "    - file:  notebooks/K2/removing_instrumental_noise_using_pld/removing_instrumental_noise_using_pld.ipynb        ",
  "",
  "  - caption: MCCM",
  "    chapters:",
  "    - file:  notebooks/MCCM/FIMS-SPEAR/hyperspectral_healpix_maps/hyperspectral_healpix_maps.ipynb",
  "    ",
  "  - caption: PanSTARRS",
  "    chapters:",
  "    - file:  notebooks/PanSTARRS/PS1_DR2_TAP/PS1_DR2_TAP.ipynb",
  "    - file:  notebooks/PanSTARRS/PS1_image/PS1_image.ipynb",
  " ",
  "  - caption: TESS",
  "    chapters:",
  "    - file:  notebooks/TESS/beginner.md",
  "      sections:",
  "        - file:  notebooks/TESS/beginner_astroquery_dv/beginner_astroquery_dv.ipynb",
  "        - file:  notebooks/TESS/beginner_how_to_use_dvt/beginner_how_to_use_dvt.ipynb",
  "        - file:  notebooks/TESS/beginner_how_to_use_ffi/beginner_how_to_use_ffi.ipynb",
  "        - file:  notebooks/TESS/beginner_how_to_use_lc/beginner_how_to_use_lc.ipynb",
  "        - file:  notebooks/TESS/beginner_how_to_use_tp/beginner_how_to_use_tp.ipynb",
  "        - file:  notebooks/TESS/beginner_tess_exomast/beginner_tess_exomast.ipynb",
  "        - file:  notebooks/TESS/beginner_tess_tap_search/beginner_tess_tap_search.ipynb",
  "        - file:  notebooks/TESS/beginner_tic_search_hd209458/beginner_tic_search_hd209458.ipynb",
  "        - file:  notebooks/TESS/beginner_tour_lc_tp/beginner_tour_lc_tp.ipynb",
  "        - file:  notebooks/TESS/beginner_tesscut_astroquery/beginner_tesscut_astroquery.ipynb",
  "    - file:  notebooks/TESS/lc.md",
  "      sections:",
  "        - file:  notebooks/TESS/interm_gi_query/interm_gi_query.ipynb",
  "        - file:  notebooks/TESS/interm_tasoc_lc/interm_tasoc_lc.ipynb",
  "        - file:  notebooks/TESS/asteroid_rotation/asteroid_rotation.ipynb",
  "    - file:  notebooks/TESS/FFIs.md",
  "      sections:",
  "        - file:  notebooks/TESS/interm_tesscut_dss_overlay/interm_tesscut_dss_overlay.ipynb",
  "        - file:  notebooks/TESS/interm_tesscut_requests/interm_tesscut_requests.ipynb",
  "    - file:  notebooks/TESS/noise.md",
  "      sections:",
  "        - file:  notebooks/TESS/interm_tess_prf_retrieve/interm_tess_prf_retrieve.ipynb",
  "        - file:  notebooks/TESS/removing_scattered_light_using_regression/removing_scattered_light_using_regression.ipynb"]

/-- The structured content of _toc.yml: a jb-book with root page and captioned parts, each part a list of chapters, each chapter a file with optional nested section files. -/
def tocConfig : JBook :=
  JBook.mk "jb-book" "intro" [
  TocPart.mk "Astrocut" [
    TocEntry.mk "notebooks/astrocut/making_tess_cubes_and_cutouts/making_tess_cubes_and_cutouts.ipynb" []],
  TocPart.mk "Astroquery" [
    TocEntry.mk "notebooks/astroquery/intro.md" [],
    TocEntry.mk "notebooks/astroquery/nb.md" [
      "notebooks/astroquery/beginner_search/beginner_search.ipynb",
      "notebooks/astroquery/beginner_zcut/beginner_zcut.ipynb",
      "notebooks/astroquery/large_downloads/large_downloads.ipynb",
      "notebooks/astroquery/historic_quasar_observations/historic_quasar_observations.ipynb"]],
  TocPart.mk "GALEX" [
    TocEntry.mk "notebooks/GALEX/mis-mosaic/mis-mosaic.ipynb" []],
  TocPart.mk "HSC" [
    TocEntry.mk "notebooks/HSC/HCV_API/HCV_API_demo.ipynb" [],
    TocEntry.mk "notebooks/MAST/HSC/HCV_CASJOBS/HCV_casjobs_demo.ipynb" [],
    TocEntry.mk "notebooks/HSC/HSCV3_API/hscv3_api.ipynb" [],
    TocEntry.mk "notebooks/HSC/HSCV3_SMC_API/hscv3_smc_api.ipynb" [],
    TocEntry.mk "notebooks/HSC/HSC_TAP/HSC_TAP.ipynb" [],
    TocEntry.mk "notebooks/HSC/SWEEPS_HSCV3P1/sweeps_hscv3p1.ipynb" [],
    TocEntry.mk "notebooks/MAST/HSC/SWEEPS_HSCV3P1_API/sweeps_hscv3p1_api.ipynb" []],
  TocPart.mk "IUE" [
    TocEntry.mk "notebooks/IUE/exploring_UV_extinction_curves/exploring_UV_extinction_curves.ipynb" []],
  TocPart.mk "JWST" [
    TocEntry.mk "notebooks/JWST/download_by_program_id/download_by_program_id.ipynb" [],
    TocEntry.mk "notebooks/JWST/Engineering_Database_Retreival/EDB_Retrieval.ipynb" [],
    TocEntry.mk "notebooks/JWST/SI_keyword_exoplanet_search/SI_keyword_exoplanet_search.ipynb" []],
  TocPart.mk "Kepler" [
    TocEntry.mk "notebooks/Kepler/beginner.md" [
      "notebooks/Kepler/plotting_lightcurves/plotting_lightcurves.ipynb",
      "notebooks/Kepler/plotting_images_from_tpf/plotting_images_from_tpf.ipynb",
      "notebooks/Kepler/plotting_dvts/plotting_dvts.ipynb",
      "notebooks/Kepler/plotting_catalog_over_FFI/plotting_catalog_over_FFI.ipynb"],
    TocEntry.mk "notebooks/Kepler/lightkurve.md" [
      "notebooks/Kepler/lightkurve_analyzing_lc_products/lightkurve_analyzing_lc_products.ipynb",
      "notebooks/Kepler/lightkurve_analyzing_tpf_products/lightkurve_analyzing_tpf_products.ipynb",
      "notebooks/Kepler/lightkurve_searching_for_data/lightkurve_searching_for_data.ipynb",
      "notebooks/Kepler/lightkurve_custom_aperture_photometry/lightkurve_custom_aperture_photometry.ipynb",
      "notebooks/Kepler/lightkurve_combining_multiple_quarters/lightkurve_combining_multiple_quarters.ipynb",
      "notebooks/Kepler/lightkurve_interactively_inspecting_TPFs_and_LCs/lightkurve_interactively_inspecting_TPFs_and_LCs.ipynb"],
    TocEntry.mk "notebooks/Kepler/inst_noise.md" [
      "notebooks/Kepler/instrumental_noise_1_data_gaps_and_quality_flags/instrumental_noise_1_data_gaps_and_quality_flags.ipynb",
      "notebooks/Kepler/instrumental_noise_2_spurious_signals_and_time_sampling_effects/instrumental_noise_2_spurious_signals_and_time_sampling_effects.ipynb",
      "notebooks/Kepler/instrumental_noise_3_seasonal_and_detector_effects/instrumental_noise_3_seasonal_and_detector_effects.ipynb",
      "notebooks/Kepler/instrumental_noise_4_electronic_noise/instrumental_noise_4_electronic_noise.ipynb"],
    TocEntry.mk "notebooks/Kepler/signals.md" [
      "notebooks/Kepler/identifying_transiting_planet_signals/identifying_transiting_planet_signals.ipynb",
      "notebooks/Kepler/measuring_a_rotation_period/measuring_a_rotation_period.ipynb",
      "notebooks/Kepler/visualizing_periodic_signals_using_a_river_plot/visualizing_periodic_signals_using_a_river_plot.ipynb",
      "notebooks/Kepler/verifying_the_location_of_a_signal/verifying_the_location_of_a_signal.ipynb"],
    TocEntry.mk "notebooks/Kepler/periodograms.md" [
      "notebooks/Kepler/creating_periodograms/creating_periodograms.ipynb",
      "notebooks/Kepler/how_to_understand_and_manipulate_the_periodogram_of_an_oscillating_star/how_to_understand_and_manipulate_the_periodogram_of_an_oscillating_star.ipynb",
      "notebooks/Kepler/how_to_estimate_a_stars_mass_and_radius_using_asteroseismology/how_to_estimate_a_stars_mass_and_radius_using_asteroseismology.ipynb"]],
  TocPart.mk "K2" [
    TocEntry.mk "notebooks/K2/lightcurve/lightcurve.ipynb" [],
    TocEntry.mk "notebooks/K2/TPF/TPF.ipynb" [],
    TocEntry.mk "notebooks/K2/beginner_how_to_use_ffi/beginner_how_to_use_ffi.ipynb" [],
    TocEntry.mk "notebooks/K2/removing_instrumental_noise_using_pld/removing_instrumental_noise_using_pld.ipynb" []],
  TocPart.mk "MCCM" [
    TocEntry.mk "notebooks/MCCM/FIMS-SPEAR/hyperspectral_healpix_maps/hyperspectral_healpix_maps.ipynb" []],
  TocPart.mk "PanSTARRS" [
    TocEntry.mk "notebooks/PanSTARRS/PS1_DR2_TAP/PS1_DR2_TAP.ipynb" [],
    TocEntry.mk "notebooks/PanSTARRS/PS1_image/PS1_image.ipynb" []],
  TocPart.mk "TESS" [
    TocEntry.mk "notebooks/TESS/beginner.md" [
      "notebooks/TESS/beginner_astroquery_dv/beginner_astroquery_dv.ipynb",
      "notebooks/TESS/beginner_how_to_use_dvt/beginner_how_to_use_dvt.ipynb",
      "notebooks/TESS/beginner_how_to_use_ffi/beginner_how_to_use_ffi.ipynb",
      "notebooks/TESS/beginner_how_to_use_lc/beginner_how_to_use_lc.ipynb",
      "notebooks/TESS/beginner_how_to_use_tp/beginner_how_to_use_tp.ipynb",
      "notebooks/TESS/beginner_tess_exomast/beginner_tess_exomast.ipynb",
      "notebooks/TESS/beginner_tess_tap_search/beginner_tess_tap_search.ipynb",
      "notebooks/TESS/beginner_tic_search_hd209458/beginner_tic_search_hd209458.ipynb",
      "notebooks/TESS/beginner_tour_lc_tp/beginner_tour_lc_tp.ipynb",
      "notebooks/TESS/beginner_tesscut_astroquery/beginner_tesscut_astroquery.ipynb"],
    TocEntry.mk "notebooks/TESS/lc.md" [
      "notebooks/TESS/interm_gi_query/interm_gi_query.ipynb",
      "notebooks/TESS/interm_tasoc_lc/interm_tasoc_lc.ipynb",
      "notebooks/TESS/asteroid_rotation/asteroid_rotation.ipynb"],
    TocEntry.mk "notebooks/TESS/FFIs.md" [
      "notebooks/TESS/interm_tesscut_dss_overlay/interm_tesscut_dss_overlay.ipynb",
      "notebooks/TESS/interm_tesscut_requests/interm_tesscut_requests.ipynb"],
    TocEntry.mk "notebooks/TESS/noise.md" [
      "notebooks/TESS/interm_tess_prf_retrieve/interm_tess_prf_retrieve.ipynb",
      "notebooks/TESS/removing_scattered_light_using_regression/removing_scattered_light_using_regression.ipynb"]]
  ]

/-- all source lines of a notebook, in cell order. -/
def notebookLines (nb : List Cell) : List String := (nb.map fun c => c.source).flatten

/-- a file of the repository: its path and its lines.  A notebook file is
modelled by the lines of its cells. -/
structure RepoFile where
  path : String
  lines : List String

/-- the repository's source files.  The original path of the asteroid-rotation
solutions notebook is not recorded in the sources available here; it is placed
beside the asteroid_rotation chapter that the toc lists. -/
def repository : List RepoFile := [
  RepoFile.mk "_toc.yml" tocLines,
  RepoFile.mk "contributing/notebook_template/notebook_template.ipynb"
    (notebookLines notebook_template),
  RepoFile.mk "notebooks/TESS/interm_tesscut_dss_overlay/interm_tesscut_dss_overlay.ipynb"
    (notebookLines interm_tesscut_dss_overlay),
  RepoFile.mk "notebooks/astroquery/wildcard_searches/wildcard_searches.ipynb"
    (notebookLines wildcard_searches),
  RepoFile.mk "notebooks/TESS/asteroid_rotation/asteroid_rotation_solutions.ipynb"
    (notebookLines asteroid_rotation_solutions)]

/-- the four notebooks of the repository. -/
def repoNotebooks : List (List Cell) :=
  [interm_tesscut_dss_overlay, wildcard_searches, notebook_template, asteroid_rotation_solutions]

/-- every line of every repository file. -/
def allRepoLines : List String := (repository.map fun f => f.lines).flatten

/-- the sources of a notebook's code cells, in order. -/
def codeCells (nb : List Cell) : List (List String) :=
  (nb.filter fun c => c.kind == CellKind.code).map fun c => c.source

/-- the sources of every code cell of every notebook. -/
def allCodeCellSources : List (List String) := (repoNotebooks.map codeCells).flatten

/-- every line of every code cell of every notebook. -/
def allCodeLines : List String := allCodeCellSources.flatten

/-- the bodies of the try statements in a code cell: for each line reading
exactly `try:` once stripped, the following lines up to the first `except`
line. -/
def tryBodies : List String → List (List String)
  | [] => []
  | l :: ls =>
    if strip l == "try:" then
      (ls.takeWhile fun x => !(strLeads "except" (strip x))) :: tryBodies ls
    else
      tryBodies ls

/-- the bodies of every try statement in the repository's code cells. -/
def repoTryBodies : List (List String) := (allCodeCellSources.map tryBodies).flatten

/-- does a code line call one of the external archive APIs used by the
notebooks (astroquery's Tesscut / Catalogs / Observations / Mast / MPC
modules, or a direct requests.get)? -/
def isArchiveApiCall (l : String) : Bool :=
  lineHasStr "Tesscut." l || lineHasStr "Catalogs." l || lineHasStr "Observations." l ||
    lineHasStr "Mast." l || lineHasStr "MPC." l || lineHasStr "requests.get(" l

/-- the number of code lines of a notebook, summed over its code cells. -/
def codeLineCount (nb : List Cell) : Nat := ((codeCells nb).map List.length).sum

/-- is the line a Python import statement (`import ...` or `from ... import ...`)? -/
def isImportLine (l : String) : Bool :=
  strLeads "import " (strip l) || (strLeads "from " (strip l) && lineHasStr " import " l)

/-- is the line blank, a comment, or an IPython magic command? -/
def isTrivialLine (l : String) : Bool :=
  strip l == "" || strLeads "#" (strip l) || strLeads "%" (strip l)

/-- does the first code cell of the notebook consist only of import
statements, IPython magics, comments and blank lines? -/
def firstCodeCellOk (nb : List Cell) : Bool :=
  match codeCells nb with
  | [] => true
  | c :: _ => c.all fun l => isImportLine l || isTrivialLine l

/-- the import lines appearing in code cells other than the first one. -/
def laterImportLines (nb : List Cell) : List String :=
  match codeCells nb with
  | [] => []
  | _ :: rest => rest.flatten.filter isImportLine

/-- the code lines of the repository that begin (stripped) with `def `. -/
def defLines : List String := allCodeLines.filter fun l => strLeads "def " (strip l)

/-- the code lines of the repository that begin (stripped) with `class `. -/
def classLines : List String := allCodeLines.filter fun l => strLeads "class " (strip l)

/-- for each code cell containing `def name`, the lines after that def line
(the function's header continuation and body). -/
def defBodies (name : String) : List (List String) :=
  ((allCodeCellSources.map fun src =>
      (src.dropWhile fun l => !(strLeads ("def " ++ name) (strip l))).drop 1).filter
    fun b => !(b.isEmpty))

/-- a function body is straight-line for `name` when it has no for or while
loop, no global or nonlocal statement, and never mentions `name` (so no
recursion). -/
def straightLine (name : String) (body : List String) : Bool :=
  body.all fun l =>
    !(strLeads "for " (strip l)) && !(strLeads "while " (strip l)) &&
      !(strLeads "global " (strip l)) && !(strLeads "nonlocal " (strip l)) &&
      !(lineHasStr name l)

/-- the observable actions of the gif-creation cell. -/
inductive NbAction where
  | saveMovie (gif : String)
deriving DecidableEq

/-- Python str.replace on char lists (all non-overlapping occurrences, left to
right), with the text's length as structural fuel. -/
def pyReplaceAux (pat sub : List Char) : Nat → List Char → List Char
  | 0, l => l
  | _ + 1, [] => []
  | fuel + 1, c :: cs =>
    if pat.isEmpty then c :: cs
    else if leadsWith pat (c :: cs) then
      sub ++ pyReplaceAux pat sub fuel (List.drop (pat.length - 1) cs)
    else
      c :: pyReplaceAux pat sub fuel cs

/-- Python str.replace. -/
def pyReplace (pat sub s : String) : String :=
  String.mk (pyReplaceAux pat.data sub.data s.data.length s.data)

/-- `gif = tpf.filename.replace('.fits', '.gif')` from the gif-creation cell. -/
def gifName (tpfFilename : String) : String := pyReplace ".fits" ".gif" tpfFilename

/-- the gif-creation cell of the TESS overlay notebook:
`if not os.path.exists(gif): tpf.save_movie(gif, show_flags=True)`.
Given which files exist on disk, it returns the actions the cell performs. -/
def gifCellActions (fileOnDisk : String → Bool) (tpfFilename : String) : List NbAction :=
  let gif := gifName tpfFilename
  if fileOnDisk gif then [] else [NbAction.saveMovie gif]

/-- the DSS cutout service url queried by getdss. -/
def dssSearchUrl : String := "https://archive.stsci.edu/cgi-bin/dss_search"

/-- the plate dictionary defined next to getdss. -/
def plateDict : List (String × String) :=
  [("red", "2r"), ("blue", "2b"), ("ukred", "poss2ukstu_red"), ("ukblue", "poss2ukstu_blue")]

/-- a value of a query parameter: a number or a string. -/
inductive PVal where
  | num (q : ℚ)
  | str (s : String)
deriving DecidableEq

/-- an HTTP GET request as issued by getdss: a url and query parameters. -/
structure DssRequest where
  url : String
  params : List (String × PVal)
deriving DecidableEq

/-- the height/width defaulting at the top of getdss: if both are omitted both
become 7.0 arcmin, and if exactly one is given the other is set equal to it. -/
def dssSize (height width : Option ℚ) : ℚ × ℚ :=
  match height with
  | none =>
    match width with
    | some w => (w, w)
    | none => (7, 7)
  | some h =>
    match width with
    | none => (h, h)
    | some w => (h, w)

/-- floor of a rational, used by the 6-decimal rendering below. -/
def ratFloor (q : ℚ) : Int := Int.ediv q.num q.den

/-- left-pad a digit string to six digits. -/
def pad6 (s : String) : String := String.mk (List.replicate (6 - s.length) '0') ++ s

/-- the `{:.6f}` rendering of a coordinate used in getdss's default filename
(the exact rounding of the last decimal is idealized as a floor; no claim
depends on the digits). -/
def fmt6 (q : ℚ) : String :=
  let n : Int := ratFloor (q * 1000000)
  let sgn := if n < 0 then "-" else ""
  let m : Nat := n.natAbs
  sgn ++ Nat.repr (m / 1000000) ++ "." ++ pad6 (Nat.repr (m % 1000000))

/-- os.path.flatten for the relative paths getdss uses. -/
def pathJoin (d f : String) : String := if strEnds "/" d then d ++ f else d ++ "/" ++ f

/-- the output filename getdss computes: the default
`dss_{plate}_{ra:.6f}_{dec:.6f}.fits` when no filename is given, joined with
the directory when one is given (Python's `if directory:` is false for an
empty string). -/
def getdssFilename (plate : String) (ra dec : ℚ) (filename directory : Option String) : String :=
  let f := match filename with
    | none => "dss_" ++ plate ++ "_" ++ fmt6 ra ++ "_" ++ fmt6 dec ++ ".fits"
    | some g => g
  match directory with
  | none => f
  | some d => if d == "" then f else pathJoin d f

/-- the query-parameter dictionary getdss builds for the request, in the
source's insertion order. -/
def getdssParams (ra dec : ℚ) (vplate : String) (height width : ℚ) : List (String × PVal) :=
  [("r", PVal.num ra), ("d", PVal.num dec), ("v", PVal.str vplate), ("e", PVal.str "J2000"),
    ("h", PVal.num height), ("w", PVal.num width), ("f", PVal.str "fits"), ("c", PVal.str "none"),
    ("s", PVal.str "yes")]

/-- the observable outcome of one getdss call: the request it issued (none if
it raised before the request), the files it wrote, and either the ValueError
message it raised or the filename it returned. -/
structure GetdssOutcome where
  request : Option DssRequest
  writes : List (String × String)
  result : Except String String

/-- the FITS header bytes getdss checks the response against. -/
def fitsMagic : String := "SIMPLE  ="

/-- the getdss function of the TESS overlay notebook.  Response bodies are
modelled as strings; `get` is the HTTP transfer performed by requests.get.
The control flow follows the source: default the height and width, look up
the plate (KeyError becomes the ValueError re-raise) before anything else,
compute the output filename, issue the GET, raise ValueError if the body
does not start with `SIMPLE  =`, and only then open, write and return. -/
def getdss (ra dec : ℚ) (plate : String) (height width : Option ℚ)
    (filename directory : Option String) (get : DssRequest → String) : GetdssOutcome :=
  let hw := dssSize height width
  match plateDict.lookup plate with
  | none =>
    GetdssOutcome.mk none []
      (Except.error ("Illegal plate value \x27" ++ plate ++
        "\x27\nShould be one of red, blue, ukred, ukblue"))
  | some vplate =>
    let fname := getdssFilename plate ra dec filename directory
    let req := DssRequest.mk dssSearchUrl (getdssParams ra dec vplate hw.1 hw.2)
    let content := get req
    if strLeads fitsMagic content then
      GetdssOutcome.mk (some req) [(fname, content)] (Except.ok fname)
    else
      GetdssOutcome.mk (some req) [] (Except.error ("No FITS file returned for " ++ fname))

/-- did the call raise (a ValueError)? -/
def isErrorOutcome (o : GetdssOutcome) : Bool :=
  match o.result with
  | Except.error _ => true
  | Except.ok _ => false

/-- a row of the filtered_observations table, restricted to the columns the
ephemeris construction reads. -/
structure ObsRow where
  s_ra : ℚ
  s_dec : ℚ
  t_min : ℚ
deriving DecidableEq

/-- a row of the ephemeris table built from s_ra, s_dec, t_min. -/
structure EphRow where
  ra : ℚ
  dec : ℚ
  t_min : ℚ
deriving DecidableEq

/-- comparison of observation rows by exposure start time. -/
def obsLE (a b : ObsRow) : Prop := a.t_min ≤ b.t_min

/-- comparison of ephemeris rows by exposure start time. -/
def ephLE (a b : EphRow) : Prop := a.t_min ≤ b.t_min

instance : DecidableRel obsLE := fun a b => inferInstanceAs (Decidable (a.t_min ≤ b.t_min))

instance : DecidableRel ephLE := fun a b => inferInstanceAs (Decidable (a.t_min ≤ b.t_min))

instance : IsTotal ObsRow obsLE := IsTotal.mk fun a b => le_total a.t_min b.t_min

instance : IsTotal EphRow ephLE := IsTotal.mk fun a b => le_total a.t_min b.t_min

instance : IsTrans ObsRow obsLE := IsTrans.mk fun _ _ _ h1 h2 => le_trans h1 h2

instance : IsTrans EphRow ephLE := IsTrans.mk fun _ _ _ h1 h2 => le_trans h1 h2

/-- `filtered_observations.sort("t_min")`, modelled as a stable sort by the
t_min column (astropy's Table.sort reorders rows by the key; stability only
matters when two rows share a t_min). -/
def tableSortByTmin (rows : List ObsRow) : List ObsRow := List.insertionSort obsLE rows

/-- `ephemeris.sort("t_min")`, the same sort on ephemeris rows. -/
def ephSortByTmin (rows : List EphRow) : List EphRow := List.insertionSort ephLE rows

/-- `ephemeris = Table([obs["s_ra"], obs["s_dec"], obs["t_min"]], names=("ra", "dec", "t_min"))`:
the ephemeris table built from the three columns in row order. -/
def mkEphemeris (rows : List ObsRow) : List EphRow :=
  rows.map fun r => EphRow.mk r.s_ra r.s_dec r.t_min

end MastNotebooks

namespace MastNotebooks

set_option maxRecDepth 200000

set_option maxHeartbeats 4000000

/-- every file referenced by the toc's parts: the chapter files and their
nested section files. -/
def tocEntryFiles : List String :=
  (tocConfig.parts.map fun p => (p.chapters.map fun c => c.file :: c.sections).flatten).flatten

/-- Claim C1 (counterexample): the repository has exactly two try/except
blocks; the second one, inside getdss, wraps the dictionary lookup
`vplate = plateDict[plate]`, which is not a call to an external archive API,
so not every try/except block wraps an external archive API call. -/
theorem C1_counterexample :
    repoTryBodies =
      [["    table = Tesscut.download_cutouts(coordinates=cutout_coords, size=x, path=path)"],
        ["        vplate = plateDict[plate]"]]
    ∧ isArchiveApiCall "        vplate = plateDict[plate]" = false := by decide

/-- Claim C1 (amended): every try/except block in the repository wraps exactly
one statement; of the two blocks, the first wraps a single external-archive
API call (Tesscut.download_cutouts) and the second wraps a dictionary lookup;
and the strings "retries" and "backpressure" appear nowhere in the
repository's files. -/
theorem C1_amended :
    (repoTryBodies.all fun b => b.length == 1) = true
    ∧ repoTryBodies.map (fun b => b.all isArchiveApiCall) = [true, false]
    ∧ (allRepoLines.all fun l => !(lineHasForbidden l)) = true := by decide

/-- Claim C2 (counterexample): the repository-defined function getdss
constructs the archive HTTP request itself (the issued request's url and
query parameters are the ones assembled by the notebook's own code) and
inspects the FITS file format itself (two responses that differ only in
whether they begin with the FITS magic bytes make getdss succeed vs. raise),
so it is not the case that no repository-defined function does either. -/
theorem C2_counterexample :
    (getdss 66 (-67) "red" none none (some "cut.fits") none
        (fun _ => "SIMPLE  =  T")).request =
      some (DssRequest.mk dssSearchUrl (getdssParams 66 (-67) "2r" 7 7))
    ∧ isErrorOutcome (getdss 66 (-67) "red" none none (some "cut.fits") none
        (fun _ => "SIMPLE  =  T")) = false
    ∧ isErrorOutcome (getdss 66 (-67) "red" none none (some "cut.fits") none
        (fun _ => "XIMPLE  =  T")) = true := by decide

/-- Claim C2 (amended): the HTTP transfer itself is delegated (requests.get
appears on exactly one code line of the repository) and full FITS parsing is
done by astropy, but getdss itself assembles the archive request — for every
valid plate the issued request is exactly dssSearchUrl with the getdssParams
dictionary — and itself checks whether the response begins with the FITS
magic bytes "SIMPLE  =", succeeding exactly when it does. -/
theorem C2_amended (ra dec : ℚ) (plate vplate : String) (height width : Option ℚ)
    (filename directory : Option String) (get : DssRequest → String)
    (hp : plateDict.lookup plate = some vplate) :
    (getdss ra dec plate height width filename directory get).request =
      some (DssRequest.mk dssSearchUrl
        (getdssParams ra dec vplate (dssSize height width).1 (dssSize height width).2))
    ∧ (isErrorOutcome (getdss ra dec plate height width filename directory get) = false ↔
        strLeads fitsMagic (get (DssRequest.mk dssSearchUrl
          (getdssParams ra dec vplate (dssSize height width).1 (dssSize height width).2))) = true)
    ∧ (allCodeLines.filter fun l => lineHasStr "requests.get" l) =
        ["    r = requests.get(url, params=params)"] := by
  refine ⟨?_, ?_, by decide⟩
  · by_cases hm : strLeads fitsMagic (get (DssRequest.mk dssSearchUrl
        (getdssParams ra dec vplate (dssSize height width).1 (dssSize height width).2))) = true <;>
      simp [getdss, hp, hm]
  · by_cases hm : strLeads fitsMagic (get (DssRequest.mk dssSearchUrl
        (getdssParams ra dec vplate (dssSize height width).1 (dssSize height width).2))) = true <;>
      simp [getdss, hp, hm, isErrorOutcome]

/-- Claim C2 (amended), witnessed at a concrete call: with plate "red" the
issued request is the one getdss assembles from its inputs. -/
theorem C2_amended_witness :
    (getdss 66 (-67) "red" none none (some "cut.fits") none (fun _ => "NOFITS")).request =
      some (DssRequest.mk dssSearchUrl (getdssParams 66 (-67) "2r" 7 7)) :=
  (C2_amended 66 (-67) "red" "2r" none none (some "cut.fits") none (fun _ => "NOFITS")
    (by decide)).1

/-- Claim C3 (counterexample): the TESS overlay notebook has 257 code lines
summed over its code cells, far more than the claimed bound of about 48. -/
theorem C3_counterexample :
    codeLineCount interm_tesscut_dss_overlay = 257
    ∧ ¬ codeLineCount interm_tesscut_dss_overlay ≤ 48 := by decide

/-- Claim C3 (amended): the per-notebook code totals are 47 (wildcard
searches), 50 (template), 105 (asteroid-rotation solutions) and 257 (TESS
overlay); only the wildcard-search notebook is within the claimed ~48 lines,
and every notebook is within 257. -/
theorem C3_amended :
    codeLineCount wildcard_searches = 47
    ∧ codeLineCount notebook_template = 50
    ∧ codeLineCount asteroid_rotation_solutions = 105
    ∧ codeLineCount interm_tesscut_dss_overlay = 257
    ∧ (repoNotebooks.all fun nb => codeLineCount nb ≤ 257) = true := by decide

/-- Claim C4 (counterexample): the gif-creation cell of the TESS overlay
notebook skips tpf.save_movie when the gif file already exists on disk, so
that output-producing step is not executed unconditionally: its persisted
result is reused based on a file-existence check. -/
theorem C4_counterexample :
    gifCellActions (fun f => f == "tess-cutout.gif") "tess-cutout.fits" = []
    ∧ gifCellActions (fun _ => false) "tess-cutout.fits" =
        [NbAction.saveMovie "tess-cutout.gif"] := by decide

/-- Claim C4 (amended): the only file-existence guard in the repository is the
gif logic of the TESS overlay notebook (the two `if not os.path.exists(gif):`
lines); the gif-creation step runs exactly when the gif file is absent, and
the template's only download call explicitly disables the library cache. -/
theorem C4_amended (fileOnDisk : String → Bool) (tpfFilename : String) :
    (gifCellActions fileOnDisk tpfFilename = [] ↔ fileOnDisk (gifName tpfFilename) = true)
    ∧ (allCodeLines.filter fun l => lineHasStr "os.path.exists" l) =
        ["if not os.path.exists(gif):", "if not os.path.exists(gif):"]
    ∧ (allCodeLines.filter fun l => lineHasStr "cache=" l) =
        ["output = Observations.download_products(yourProd, mrp_only=False, cache=False)"] := by
  refine ⟨?_, by decide, by decide⟩
  by_cases h : fileOnDisk (gifName tpfFilename) = true <;> simp [gifCellActions, h]

/-- Claim C4 (amended), witnessed at a concrete run: when the gif already
exists the cell performs no action. -/
theorem C4_amended_witness :
    gifCellActions (fun _ => true) "tess-cutout.fits" = [] :=
  (C4_amended (fun _ => true) "tess-cutout.fits").1.mpr (by decide)

/-- Claim C5: assuming the HTTP GET succeeds, getdss raises ValueError iff
either the plate is not one of red/blue/ukred/ukblue or the response body
does not start with "SIMPLE  ="; in both error cases no file is written, and
otherwise the response body is written to the computed filename, which is
returned. -/
theorem C5_getdss_errors (ra dec : ℚ) (plate : String) (height width : Option ℚ)
    (filename directory : Option String) (get : DssRequest → String) :
    (isErrorOutcome (getdss ra dec plate height width filename directory get) = true ↔
      plateDict.lookup plate = none ∨
        ∃ req, (getdss ra dec plate height width filename directory get).request = some req ∧
          strLeads fitsMagic (get req) = false)
    ∧ (isErrorOutcome (getdss ra dec plate height width filename directory get) = true →
        (getdss ra dec plate height width filename directory get).writes = [])
    ∧ (∀ f, (getdss ra dec plate height width filename directory get).result = Except.ok f →
        ∃ req, (getdss ra dec plate height width filename directory get).request = some req ∧
          (getdss ra dec plate height width filename directory get).writes = [(f, get req)]) := by
  cases hp : plateDict.lookup plate with
  | none =>
    refine ⟨?_, ?_, ?_⟩ <;> simp [getdss, hp, isErrorOutcome]
  | some vplate =>
    by_cases hm : strLeads fitsMagic (get (DssRequest.mk dssSearchUrl
        (getdssParams ra dec vplate (dssSize height width).1 (dssSize height width).2))) = true <;>
      refine ⟨?_, ?_, ?_⟩ <;> simp [getdss, hp, hm, isErrorOutcome]

/-- Claim C5, witnessed at a concrete call: an invalid plate makes getdss
raise. -/
theorem C5_getdss_errors_witness :
    isErrorOutcome (getdss 66 (-67) "green" none none (some "cut.fits") none
      (fun _ => "SIMPLE  =")) = true :=
  ((C5_getdss_errors 66 (-67) "green" none none (some "cut.fits") none
    (fun _ => "SIMPLE  =")).1).mpr (Or.inl (by decide))

/-- Claim C6: if both height and width are omitted they default to 7.0
arcminutes each, if exactly one is given the other is set equal to it, and
for every call with at most one of the two specified the request getdss sends
has equal h and w parameters. -/
theorem C6_square_size (height width : Option ℚ) (hyp : height = none ∨ width = none) :
    (dssSize height width).1 = (dssSize height width).2
    ∧ dssSize none none = (7, 7)
    ∧ (∀ q, dssSize (some q) none = (q, q))
    ∧ (∀ q, dssSize none (some q) = (q, q))
    ∧ (∀ ra dec plate fn dir get req,
        (getdss ra dec plate height width fn dir get).request = some req →
          req.params.lookup "h" = req.params.lookup "w") := by
  have h1 : (dssSize height width).1 = (dssSize height width).2 := by
    rcases hyp with h | h <;> subst h
    · cases width <;> rfl
    · cases height <;> rfl
  refine ⟨h1, rfl, fun q => rfl, fun q => rfl, ?_⟩
  intro ra dec plate fn dir get req hreq
  cases hp : plateDict.lookup plate with
  | none => simp [getdss, hp] at hreq
  | some vplate =>
    have hval : (getdss ra dec plate height width fn dir get).request =
        some (DssRequest.mk dssSearchUrl
          (getdssParams ra dec vplate (dssSize height width).1 (dssSize height width).2)) := by
      by_cases hm : strLeads fitsMagic (get (DssRequest.mk dssSearchUrl
          (getdssParams ra dec vplate (dssSize height width).1 (dssSize height width).2))) = true <;>
        simp [getdss, hp, hm]
    rw [hval] at hreq
    have hr := Option.some.inj hreq
    subst hr
    show some (PVal.num (dssSize height width).1) = some (PVal.num (dssSize height width).2)
    rw [h1]

/-- Claim C6, witnessed at a concrete call: a height of 3 arcmin with the
width omitted yields a square 3-by-3 request. -/
theorem C6_square_size_witness :
    dssSize (some 3) none = (3, 3) :=
  ((C6_square_size (some 3) none (Or.inr rfl)).2.2.1) 3

/-- Claim C7: after filtered_observations is sorted by t_min and the
ephemeris is built from its s_ra, s_dec and t_min columns in row order,
sorting the ephemeris by t_min again leaves it unchanged. -/
theorem C7_second_sort_noop (obs : List ObsRow) :
    ephSortByTmin (mkEphemeris (tableSortByTmin obs)) = mkEphemeris (tableSortByTmin obs) := by
  have h1 : List.Sorted obsLE (tableSortByTmin obs) := List.sorted_insertionSort obsLE obs
  have h2 : List.Sorted ephLE (mkEphemeris (tableSortByTmin obs)) :=
    List.Pairwise.map _ (fun a b h => h) h1
  exact List.Sorted.insertionSort_eq h2

/-- Claim C8: the notebooks define no class; the only functions they define
are getdss and create_plot, and both bodies have no loop, no recursion and no
global/nonlocal state. -/
theorem C8_straightline_functions :
    classLines = []
    ∧ defLines =
        ["def getdss(ra, dec, plate=\"red\", height=None, width=None, ",
          "def create_plot(background_img, foreground_img, alpha, norm, wcs, ra, dec):"]
    ∧ (defBodies "getdss").length = 1
    ∧ (defBodies "create_plot").length = 1
    ∧ ((defBodies "getdss").all fun b => straightLine "getdss" b) = true
    ∧ ((defBodies "create_plot").all fun b => straightLine "create_plot" b) = true := by decide

/-- Claim C9 (counterexample): the asteroid-rotation solutions notebook
imports astroquery.mpc's MPC in a code cell other than its first one, so not
every library import occurs in the first code cell. -/
theorem C9_counterexample :
    laterImportLines asteroid_rotation_solutions = ["from astroquery.mpc import MPC"]
    ∧ isImportLine "from astroquery.mpc import MPC" = true := by decide

/-- Claim C9 (amended): in all four notebooks the first code cell consists
only of imports, IPython magics, comments and blank lines; three notebooks
have no later import, and the repository's only later import is the MPC
one in the asteroid-rotation solutions notebook's final exercise. -/
theorem C9_amended :
    (repoNotebooks.all firstCodeCellOk) = true
    ∧ laterImportLines interm_tesscut_dss_overlay = []
    ∧ laterImportLines wildcard_searches = []
    ∧ laterImportLines notebook_template = []
    ∧ laterImportLines asteroid_rotation_solutions = ["from astroquery.mpc import MPC"] := by decide

/-- Claim C10: the repository has exactly one toc configuration file,
declaring a jb-book with root "intro" whose parts are all captioned and whose
entries are all file references to .ipynb or .md pages, and exactly one
notebook template under contributing/notebook_template/. -/
theorem C10_toc :
    (repository.filter fun f => strEnds "_toc.yml" f.path).length = 1
    ∧ tocConfig.format = "jb-book"
    ∧ tocConfig.root = "intro"
    ∧ (tocConfig.parts.all fun p => !(p.caption == "")) = true
    ∧ (tocEntryFiles.all fun f => strEnds ".ipynb" f || strEnds ".md" f) = true
    ∧ (repository.filter fun f => strLeads "contributing/notebook_template/" f.path).length = 1 := by
  decide

end MastNotebooks
